import Mathlib

/-!
Verification of the manual-transmission driving-stats tracker
(`opendbc/car/subaru/manual_stats.py`).

The Python module is shallowly embedded here:
* floating-point values are modelled as exact rationals (`ℚ`);
* the tracker object is a `TrackerState` record, and every mutating method
  becomes a pure function from state to state;
* persistence (`Params.put_nonblocking`) is modelled as a list of emitted
  `SaveEvent`s, since claims only concern *when* and *which* blobs are written;
* the smoothness metric in Python is `variance ** 0.5`.  `Real.sqrt` is not
  executable, so inside the tracker state the metric is represented by its
  square (the population variance) and every grading threshold is squared.
  Since `Real.sqrt` is strictly monotone on nonnegatives, every comparison
  `std < c` in the source is exactly `variance < c^2`, so all control flow is
  preserved (the standalone metric itself is analysed with `Real.sqrt` for the
  smoothness claim).
-/

namespace ManualStats

/-- `DT_CTRL` (from `opendbc.car`, outside the embedded file): the fixed
control-loop tick period.  Modelled from the spec: one call per fixed tick
(10 ms). -/
def DT_CTRL : ℚ := 1 / 100

/-- `BRZ_GEAR_RATIOS`: gear-ratio dictionary keyed by gear 1..6; `none` models
"gear not in BRZ_GEAR_RATIOS". -/
def BRZ_GEAR_RATIOS (gear : ℤ) : Option ℚ :=
  if gear = 1 then some (3626 / 1000)
  else if gear = 2 then some (2188 / 1000)
  else if gear = 3 then some (1541 / 1000)
  else if gear = 4 then some (1213 / 1000)
  else if gear = 5 then some (1000 / 1000)
  else if gear = 6 then some (767 / 1000)
  else none

def BRZ_FINAL_DRIVE : ℚ := 410 / 100

def BRZ_TIRE_CIRCUMFERENCE : ℚ := 1977 / 1000

/-- `rpm_for_speed_and_gear`: expected RPM for a given speed and gear. -/
def rpm_for_speed_and_gear (speed_ms : ℚ) (gear : ℤ) : ℚ :=
  match BRZ_GEAR_RATIOS gear with
  | none => 0
  | some ratio =>
      if speed_ms ≤ 0 then 0
      else (speed_ms * BRZ_FINAL_DRIVE * ratio * 60) / BRZ_TIRE_CIRCUMFERENCE

/-- `speed_for_rpm_and_gear`: expected speed for a given RPM and gear. -/
def speed_for_rpm_and_gear (rpm : ℚ) (gear : ℤ) : ℚ :=
  match BRZ_GEAR_RATIOS gear with
  | none => 0
  | some ratio =>
      if rpm ≤ 0 then 0
      else (rpm * BRZ_TIRE_CIRCUMFERENCE) / (BRZ_FINAL_DRIVE * ratio * 60)

/-! ## Smoothness metric (`_calculate_jerk`) -/

/-- `list(self.accel_history)[-50:]`: the most recent up-to-50 samples
(the whole list when it holds fewer than 50). -/
def last50 (l : List ℚ) : List ℚ := l.drop (l.length - 50)

/-- Population mean of a sample list (`sum(accels) / len(accels)`). -/
def listMean (l : List ℚ) : ℚ := l.sum / l.length

/-- Population variance (`sum((a - mean) ** 2 for a in accels) / len(accels)`). -/
def popVariance (l : List ℚ) : ℚ :=
  ((l.map (fun a => (a - listMean l) ^ 2)).sum) / l.length

/-- `_calculate_jerk`, squared: returns 0 for fewer than 10 buffered samples,
otherwise the population variance of the most recent up-to-50 samples.  This is
the square of the value the source computes (`variance ** 0.5`); it is the
representation used inside the tracker state. -/
def calculateJerkSq (h : List ℚ) : ℚ :=
  if h.length < 10 then 0 else popVariance (last50 h)

/-- `_calculate_jerk` itself: the population standard deviation, i.e. the
square root of `calculateJerkSq`. -/
noncomputable def calculateJerk (h : List ℚ) : ℝ :=
  Real.sqrt ((calculateJerkSq h : ℚ) : ℝ)

/-! ## Data model -/

/-- The named blobs the tracker writes through `Params.put_nonblocking`.
`sessionStats` is the "ManualDriveLastSession" blob (`_save_session_stats`),
`historicalStats` the cumulative "ManualDriveStats" blob
(`_save_historical_stats`), `liveStats` the "ManualDriveLiveStats" blob
(`_update_live_stats`). -/
inductive SaveEvent where
  | sessionStats
  | historicalStats
  | liveStats
  deriving DecidableEq, Repr

/-- `DriveSession` dataclass: the per-session counters. -/
structure DriveSession where
  start_time : ℚ := 0
  end_time : ℚ := 0
  duration : ℚ := 0
  stall_count : ℕ := 0
  lug_count : ℕ := 0
  lug_duration_total : ℚ := 0
  upshift_count : ℕ := 0
  upshift_good : ℕ := 0
  upshift_ok : ℕ := 0
  upshift_poor : ℕ := 0
  downshift_count : ℕ := 0
  downshift_good : ℕ := 0
  downshift_ok : ℕ := 0
  downshift_poor : ℕ := 0
  launch_count : ℕ := 0
  launch_good : ℕ := 0
  launch_ok : ℕ := 0
  launch_poor : ℕ := 0
  launch_stalled : ℕ := 0
  deriving DecidableEq, Repr

/-- `SessionSummary` dataclass: one entry of the bounded session history. -/
structure SessionSummary where
  timestamp : ℚ := 0
  duration : ℚ := 0
  stalls : ℕ := 0
  lugs : ℕ := 0
  upshifts : ℕ := 0
  upshifts_good : ℕ := 0
  downshifts : ℕ := 0
  downshifts_good : ℕ := 0
  launches : ℕ := 0
  launches_good : ℕ := 0
  deriving DecidableEq, Repr

/-- `HistoricalStats` dataclass: the cumulative (all-time) counters.  The two
per-gear dictionaries are modelled as total functions with default 0
(matching `.get(gear, 0)` access); `gear_shift_jerk_totals` accumulates the
squared metric in this model (its value is read by no claim). -/
structure HistoricalStats where
  total_drives : ℕ := 0
  total_drive_time : ℚ := 0
  total_stalls : ℕ := 0
  total_lugs : ℕ := 0
  total_lug_time : ℚ := 0
  total_upshifts : ℕ := 0
  upshifts_good : ℕ := 0
  upshifts_ok : ℕ := 0
  upshifts_poor : ℕ := 0
  total_downshifts : ℕ := 0
  downshifts_good : ℕ := 0
  gear_shift_counts : ℤ → ℕ := fun _ => 0
  gear_shift_jerk_totals : ℤ → ℚ := fun _ => 0
  downshifts_ok : ℕ := 0
  downshifts_poor : ℕ := 0
  total_launches : ℕ := 0
  launches_good : ℕ := 0
  launches_ok : ℕ := 0
  launches_poor : ℕ := 0
  launches_stalled : ℕ := 0
  session_history : List SessionSummary := []
  recent_stall_rates : List ℕ := []
  recent_shift_scores : List ℕ := []

/-- One telemetry sample, the arguments of `ManualStatsTracker.update`. -/
structure TelemetryInput where
  rpm : ℚ
  gear : ℤ
  speed : ℚ
  accel : ℚ
  clutch : Bool
  neutral : Bool
  throttle : ℚ
  deriving DecidableEq, Repr

/-- The mutable fields of `ManualStatsTracker`.  `launch_max_jerk_sq` and
`last_shift_smoothness_sq` hold the squares of the source's
`launch_max_jerk` / `last_shift_smoothness` (see module comment). -/
structure TrackerState where
  historical : HistoricalStats
  frame : ℕ
  session_start_frame : ℕ
  session : DriveSession
  prev_rpm : ℚ
  prev_gear : ℤ
  prev_speed : ℚ
  prev_accel : ℚ
  prev_throttle : ℚ
  accel_history : List ℚ
  is_lugging : Bool
  lug_start_frame : ℕ
  is_launching : Bool
  launch_start_frame : ℕ
  launch_max_jerk_sq : ℚ
  launch_clutch_released : Bool
  clutch_pressed_recently : Bool
  clutch_release_frame : ℕ
  last_shift_smoothness_sq : ℚ
  last_shift_grade : ℕ
  last_shift_frame : ℕ
  gear_before_clutch : ℤ
  live_update_counter : ℕ

/-- `__init__`: a fresh tracker around the loaded (or default) historical
stats; the loaded stats at construction time are exactly the "snapshot" the
spec speaks about. -/
def mkTracker (historical : HistoricalStats) : TrackerState where
  historical := historical
  frame := 0
  session_start_frame := 0
  session := {}
  prev_rpm := 0
  prev_gear := 0
  prev_speed := 0
  prev_accel := 0
  prev_throttle := 0
  accel_history := []
  is_lugging := false
  lug_start_frame := 0
  is_launching := false
  launch_start_frame := 0
  launch_max_jerk_sq := 0
  launch_clutch_released := false
  clutch_pressed_recently := false
  clutch_release_frame := 0
  last_shift_smoothness_sq := 0
  last_shift_grade := 0
  last_shift_frame := 0
  gear_before_clutch := 0
  live_update_counter := 0

/-- The `HistoricalStats()` all-zero defaults (fallback on missing/corrupt
persisted state). -/
def initHistorical : HistoricalStats := {}

/-! ## Detection thresholds (squared where they bound a smoothness value) -/

def STALL_RPM_THRESHOLD : ℚ := 300

def LUG_RPM_THRESHOLD : ℚ := 1500

def LUG_LOAD_THRESHOLD : ℚ := 1 / 10

def MIN_SPEED_FOR_LUG : ℚ := 3 / 2

def LAUNCH_SPEED_THRESHOLD : ℚ := 1 / 2

def LAUNCH_COMPLETE_SPEED : ℚ := 5

def GOOD_SHIFT_SMOOTHNESS_SQ : ℚ := (5 / 10) ^ 2

def OK_SHIFT_SMOOTHNESS_SQ : ℚ := 1 ^ 2

def GOOD_DOWNSHIFT_REV_MATCH_TOLERANCE : ℚ := 300

def OK_DOWNSHIFT_REV_MATCH_TOLERANCE : ℚ := 500

def GOOD_LAUNCH_SMOOTHNESS_SQ : ℚ := (15 / 10) ^ 2

def OK_LAUNCH_SMOOTHNESS_SQ : ℚ := (25 / 10) ^ 2

/-- `deque(maxlen=50)` append: append and evict the oldest beyond 50. -/
def dequeAppend (h : List ℚ) (a : ℚ) : List ℚ :=
  let h' := h ++ [a]
  if 50 < h'.length then h'.tail else h'

/-! ## Sub-detectors -/

/-- `_detect_stall`. -/
def detectStall (s : TrackerState) (rpm : ℚ) (neutral : Bool) : TrackerState :=
  if rpm < STALL_RPM_THRESHOLD ∧ STALL_RPM_THRESHOLD ≤ s.prev_rpm then
    if neutral = false then
      let s1 := { s with session := { s.session with stall_count := s.session.stall_count + 1 } }
      if s1.is_launching then
        { s1 with
          session := { s1.session with
            launch_stalled := s1.session.launch_stalled + 1
            launch_count := s1.session.launch_count + 1 }
          is_launching := false }
      else s1
    else s
  else s

/-- The level-triggered lug condition (`is_lugging_now`). -/
def isLuggingNow (rpm throttle speed : ℚ) (in_gear : Bool) : Bool :=
  in_gear && decide (rpm < LUG_RPM_THRESHOLD) &&
  decide (LUG_LOAD_THRESHOLD < throttle) && decide (MIN_SPEED_FOR_LUG < speed)

/-- `_detect_lug`. -/
def detectLug (s : TrackerState) (rpm throttle speed : ℚ) (in_gear : Bool) : TrackerState :=
  let now := isLuggingNow rpm throttle speed in_gear
  if now && !s.is_lugging then
    { s with
      is_lugging := true
      lug_start_frame := s.frame
      session := { s.session with lug_count := s.session.lug_count + 1 } }
  else if !now && s.is_lugging then
    { s with
      session := { s.session with
        lug_duration_total := s.session.lug_duration_total +
          ((s.frame : ℚ) - (s.lug_start_frame : ℚ)) * DT_CTRL }
      is_lugging := false }
  else s

/-- `_detect_launch`. -/
def detectLaunch (s : TrackerState) (rpm speed : ℚ) (clutch neutral : Bool) : TrackerState :=
  let s1 :=
    if decide (speed < LAUNCH_SPEED_THRESHOLD) && clutch && !s.is_launching then
      { s with
        is_launching := true
        launch_start_frame := s.frame
        launch_max_jerk_sq := 0
        launch_clutch_released := false }
    else s
  if s1.is_launching then
    let s2 := if !clutch then { s1 with launch_clutch_released := true } else s1
    let current := calculateJerkSq s2.accel_history
    let s3 := { s2 with launch_max_jerk_sq := max s2.launch_max_jerk_sq current }
    if decide (LAUNCH_COMPLETE_SPEED ≤ speed) && s3.launch_clutch_released then
      let s4 :=
        if s3.launch_max_jerk_sq < GOOD_LAUNCH_SMOOTHNESS_SQ then
          { s3 with session := { s3.session with launch_good := s3.session.launch_good + 1 } }
        else if s3.launch_max_jerk_sq < OK_LAUNCH_SMOOTHNESS_SQ then
          { s3 with session := { s3.session with launch_ok := s3.session.launch_ok + 1 } }
        else
          { s3 with session := { s3.session with launch_poor := s3.session.launch_poor + 1 } }
      { s4 with
        session := { s4.session with launch_count := s4.session.launch_count + 1 }
        is_launching := false }
    else s3
  else s1

/-- The per-gear dictionary bookkeeping inside `_detect_shift`
(`gear_shift_counts` / `gear_shift_jerk_totals` for the gear shifted into). -/
def shiftRecordGear (s : TrackerState) (gear : ℤ) (smoothness : ℚ) : TrackerState :=
  if 1 ≤ gear ∧ gear ≤ 6 then
    { s with historical := { s.historical with
        gear_shift_counts := fun g =>
          if g = gear then s.historical.gear_shift_counts gear + 1
          else s.historical.gear_shift_counts g
        gear_shift_jerk_totals := fun g =>
          if g = gear then s.historical.gear_shift_jerk_totals gear + smoothness
          else s.historical.gear_shift_jerk_totals g } }
  else s

/-- The grading arm of `_detect_shift`: upshifts by smoothness alone,
downshifts by rev-match error combined with smoothness.  Returns the state
with the graded counter bumped and the numeric grade (1 good / 2 ok / 3 poor). -/
def gradeShift (s1 : TrackerState) (rpm : ℚ) (gear : ℤ) (smoothness : ℚ) :
    TrackerState × ℕ :=
  if s1.gear_before_clutch < gear then
    if smoothness < GOOD_SHIFT_SMOOTHNESS_SQ then
      ({ s1 with session := { s1.session with
          upshift_good := s1.session.upshift_good + 1
          upshift_count := s1.session.upshift_count + 1 } }, 1)
    else if smoothness < OK_SHIFT_SMOOTHNESS_SQ then
      ({ s1 with session := { s1.session with
          upshift_ok := s1.session.upshift_ok + 1
          upshift_count := s1.session.upshift_count + 1 } }, 2)
    else
      ({ s1 with session := { s1.session with
          upshift_poor := s1.session.upshift_poor + 1
          upshift_count := s1.session.upshift_count + 1 } }, 3)
  else
    let target_rpm := rpm_for_speed_and_gear s1.prev_speed gear
    let rpm_match_error := |rpm - target_rpm|
    if rpm_match_error < GOOD_DOWNSHIFT_REV_MATCH_TOLERANCE ∧
       smoothness < GOOD_SHIFT_SMOOTHNESS_SQ then
      ({ s1 with session := { s1.session with
          downshift_good := s1.session.downshift_good + 1
          downshift_count := s1.session.downshift_count + 1 } }, 1)
    else if rpm_match_error < OK_DOWNSHIFT_REV_MATCH_TOLERANCE ∨
            (rpm_match_error < GOOD_DOWNSHIFT_REV_MATCH_TOLERANCE ∧
             smoothness < OK_SHIFT_SMOOTHNESS_SQ) then
      ({ s1 with session := { s1.session with
          downshift_ok := s1.session.downshift_ok + 1
          downshift_count := s1.session.downshift_count + 1 } }, 2)
    else
      ({ s1 with session := { s1.session with
          downshift_poor := s1.session.downshift_poor + 1
          downshift_count := s1.session.downshift_count + 1 } }, 3)

/-- `_detect_shift`.  Returns the updated state. -/
def detectShift (s : TrackerState) (rpm : ℚ) (gear : ℤ) (clutch neutral : Bool) : TrackerState :=
  if gear = 0 ∨ neutral = true then s
  else if 100 < (s.frame : ℤ) - (s.clutch_release_frame : ℤ) then s
  else if gear ≠ s.gear_before_clutch ∧ 0 < s.gear_before_clutch ∧ clutch = false then
    let smoothness := calculateJerkSq s.accel_history
    let s1 := shiftRecordGear s gear smoothness
    let graded := gradeShift s1 rpm gear smoothness
    { graded.1 with
      last_shift_smoothness_sq := smoothness
      last_shift_grade := graded.2
      last_shift_frame := graded.1.frame
      clutch_release_frame := 0
      gear_before_clutch := 0 }
  else s

/-! ## `update`: one tick -/

/-- The opening lines of `update`: advance the frame counter, append the
acceleration sample, and edge-track the clutch for shift validation. -/
def preUpdate (s0 : TrackerState) (inp : TelemetryInput) : TrackerState :=
  let s := { s0 with frame := s0.frame + 1 }
  let s := { s with accel_history := dequeAppend s.accel_history inp.accel }
  if inp.clutch && !s.clutch_pressed_recently then
    { s with
      clutch_pressed_recently := true
      gear_before_clutch := s.prev_gear }
  else if !inp.clutch && s.clutch_pressed_recently then
    { s with
      clutch_release_frame := s.frame
      clutch_pressed_recently := false }
  else s

/-- The closing lines of `update`: record the previous sample and run the
periodic-save countdown (`_live_update_counter`). -/
def postUpdate (s : TrackerState) (inp : TelemetryInput) : TrackerState × List SaveEvent :=
  let s := { s with
    prev_rpm := inp.rpm
    prev_gear := inp.gear
    prev_speed := inp.speed
    prev_accel := inp.accel
    prev_throttle := inp.throttle }
  let s := { s with live_update_counter := s.live_update_counter + 1 }
  if 500 ≤ s.live_update_counter then
    ({ s with live_update_counter := 0 }, [SaveEvent.sessionStats, SaveEvent.liveStats])
  else (s, [])

/-- `ManualStatsTracker.update`: one tick.  Returns the new state and the
list of blobs written during this tick (in write order). -/
def update (s0 : TrackerState) (inp : TelemetryInput) : TrackerState × List SaveEvent :=
  let in_gear := !inp.neutral && !inp.clutch
  let s := preUpdate s0 inp
  let s := detectStall s inp.rpm inp.neutral
  let s := detectLug s inp.rpm inp.throttle inp.speed in_gear
  let s := detectLaunch s inp.rpm inp.speed inp.clutch inp.neutral
  let s := detectShift s inp.rpm inp.gear inp.clutch inp.neutral
  postUpdate s inp

/-! ## `end_session` -/

/-- The session duration `(frame - session_start_frame) * DT_CTRL`. -/
def sessionDuration (s : TrackerState) : ℚ :=
  ((s.frame : ℚ) - (s.session_start_frame : ℚ)) * DT_CTRL

/-- The `SessionSummary` that `end_session` appends to the history, built
from the session counters (`duration` read back from the session record). -/
def summaryOfSession (now : ℚ) (s : TrackerState) : SessionSummary :=
  { timestamp := now
    duration := s.session.duration
    stalls := s.session.stall_count
    lugs := s.session.lug_count
    upshifts := s.session.upshift_count
    upshifts_good := s.session.upshift_good
    downshifts := s.session.downshift_count
    downshifts_good := s.session.downshift_good
    launches := s.session.launch_count
    launches_good := s.session.launch_good }

/-- `ManualStatsTracker.end_session`, with `time.time()` passed in as `now`.
Returns the new state and the blobs written. -/
def endSession (now : ℚ) (s0 : TrackerState) : TrackerState × List SaveEvent :=
  let d := sessionDuration s0
  let s := { s0 with session := { s0.session with duration := d } }
  if d < 30 then (s, [])
  else
    let h0 := s.historical
    let h1 := { h0 with
      total_drives := h0.total_drives + 1
      total_drive_time := h0.total_drive_time + s.session.duration
      total_stalls := h0.total_stalls + s.session.stall_count
      total_lugs := h0.total_lugs + s.session.lug_count
      total_lug_time := h0.total_lug_time + s.session.lug_duration_total
      total_upshifts := h0.total_upshifts + s.session.upshift_count
      upshifts_good := h0.upshifts_good + s.session.upshift_good
      upshifts_ok := h0.upshifts_ok + s.session.upshift_ok
      upshifts_poor := h0.upshifts_poor + s.session.upshift_poor
      total_downshifts := h0.total_downshifts + s.session.downshift_count
      downshifts_good := h0.downshifts_good + s.session.downshift_good
      downshifts_ok := h0.downshifts_ok + s.session.downshift_ok
      downshifts_poor := h0.downshifts_poor + s.session.downshift_poor
      total_launches := h0.total_launches + s.session.launch_count
      launches_good := h0.launches_good + s.session.launch_good
      launches_ok := h0.launches_ok + s.session.launch_ok
      launches_poor := h0.launches_poor + s.session.launch_poor
      launches_stalled := h0.launches_stalled + s.session.launch_stalled }
    let summary : SessionSummary := summaryOfSession now s
    let h2 := { h1 with session_history :=
      let sh := h1.session_history ++ [summary]
      if 30 < sh.length then sh.tail else sh }
    let h3 := { h2 with recent_stall_rates :=
      let rs := h2.recent_stall_rates ++ [s.session.stall_count]
      if 10 < rs.length then rs.tail else rs }
    let total_shifts := s.session.upshift_count + s.session.downshift_count
    let shift_score : ℕ :=
      if 0 < total_shifts then
        ((s.session.upshift_good + s.session.downshift_good) * 100 +
         (s.session.upshift_ok + s.session.downshift_ok) * 50) / total_shifts
      else 100
    let h4 := { h3 with recent_shift_scores :=
      let rss := h3.recent_shift_scores ++ [shift_score]
      if 10 < rss.length then rss.tail else rss }
    ({ s with historical := h4 }, [SaveEvent.sessionStats, SaveEvent.historicalStats])

/-! ## Concrete fixtures for witnesses and counterexamples -/

/-- A freshly constructed tracker over the all-zero defaults. -/
def baseTracker : TrackerState := mkTracker initHistorical

/-- A sample whose rpm is below the stall threshold, not in neutral. -/
def stallInput : TelemetryInput :=
  { rpm := 100, gear := 1, speed := 2, accel := 0, clutch := false, neutral := false,
    throttle := 0 }

/-- A tracker whose previous sample was above the stall threshold. -/
def stallReadyState : TrackerState := { baseTracker with prev_rpm := 400 }

/-- Same, but with a launch in progress. -/
def stallLaunchState : TrackerState := { stallReadyState with is_launching := true }

/-- A sample satisfying the lug condition (in gear, low rpm, loaded, moving). -/
def lugInput : TelemetryInput :=
  { rpm := 1000, gear := 2, speed := 2, accel := 0, clutch := false, neutral := false,
    throttle := 1 / 2 }

/-- A tracker 4000 frames (40 s) into its session with a few session counts. -/
def endReadyState : TrackerState :=
  { baseTracker with
    frame := 4000
    session := { stall_count := 2, lug_count := 1, upshift_count := 1, downshift_count := 1,
                 launch_count := 1 } }

/-- Same, with the session history already at its 30-entry capacity. -/
def fullHistoryState : TrackerState :=
  { endReadyState with
    historical := { initHistorical with session_history := List.replicate 30 {} } }

/-- The summary `end_session` appends, expressed over the pre-call state. -/
def endSummary (now : ℚ) (s : TrackerState) : SessionSummary :=
  { timestamp := now
    duration := sessionDuration s
    stalls := s.session.stall_count
    lugs := s.session.lug_count
    upshifts := s.session.upshift_count
    upshifts_good := s.session.upshift_good
    downshifts := s.session.downshift_count
    downshifts_good := s.session.downshift_good
    launches := s.session.launch_count
    launches_good := s.session.launch_good }

/-! ## Gear prediction (`predict_gear`, C7) -/

/-- The per-gear error inside `predict_gear`:
`|rpm − expected|`, discounted by 10% for gears 1–2. -/
def gearError (rpm speed : ℚ) (g : ℤ) : ℚ :=
  let e := |rpm - rpm_for_speed_and_gear speed g|
  if g ≤ 2 then e * (9 / 10) else e

/-- The `for gear in range(1, 7)` minimum-tracking loop of `predict_gear`;
`none` is the initial `float('inf')` minimum. -/
def bestGearFold (rpm speed : ℚ) : List ℤ → ℤ × Option ℚ → ℤ × Option ℚ
  | [], acc => acc
  | g :: gs, (_, none) =>
      bestGearFold rpm speed gs (g, some (gearError rpm speed g))
  | g :: gs, (bg, some m) =>
      bestGearFold rpm speed gs
        (if gearError rpm speed g < m then (g, some (gearError rpm speed g)) else (bg, some m))

/-- `ManualStatsTracker.predict_gear`. -/
def predict_gear (rpm speed_ms : ℚ) : ℤ :=
  if rpm < 500 ∨ speed_ms < 1 / 2 then 0
  else
    match bestGearFold rpm speed_ms [1, 2, 3, 4, 5, 6] (0, none) with
    | (bg, some m) => if m < 500 then bg else 0
    | (_, none) => 0

/-! ## Totality of `update` (C9)

The only operation in the tick path that can raise in Python is division by
zero, and the only division whose divisor is not a nonzero literal constant is
the `len(accels)` division inside `_calculate_jerk` (the kinematic helpers
divide by nonzero vehicle constants).  The checked variants below return
`none` exactly where Python would raise `ZeroDivisionError`; the totality
theorem shows they always return `some`, for every input, in-range or not. -/

/-- Division returning `none` where Python raises `ZeroDivisionError`. -/
def safeDiv (a b : ℚ) : Option ℚ := if b = 0 then none else some (a / b)

/-- `_calculate_jerk`'s variance with its two divisions checked. -/
def popVarianceChecked (l : List ℚ) : Option ℚ :=
  (safeDiv l.sum l.length).bind fun m =>
    safeDiv ((l.map (fun a => (a - m) ^ 2)).sum) l.length

/-- `_calculate_jerk` (squared form) with checked division. -/
def calculateJerkSqChecked (h : List ℚ) : Option ℚ :=
  if h.length < 10 then some 0 else popVarianceChecked (last50 h)

/-- `_detect_launch` with checked smoothness computation. -/
def detectLaunchChecked (s : TrackerState) (rpm speed : ℚ) (clutch neutral : Bool) :
    Option TrackerState :=
  let s1 :=
    if decide (speed < LAUNCH_SPEED_THRESHOLD) && clutch && !s.is_launching then
      { s with
        is_launching := true
        launch_start_frame := s.frame
        launch_max_jerk_sq := 0
        launch_clutch_released := false }
    else s
  if s1.is_launching then
    let s2 := if !clutch then { s1 with launch_clutch_released := true } else s1
    (calculateJerkSqChecked s2.accel_history).bind fun current =>
      let s3 := { s2 with launch_max_jerk_sq := max s2.launch_max_jerk_sq current }
      if decide (LAUNCH_COMPLETE_SPEED ≤ speed) && s3.launch_clutch_released then
        let s4 :=
          if s3.launch_max_jerk_sq < GOOD_LAUNCH_SMOOTHNESS_SQ then
            { s3 with session := { s3.session with launch_good := s3.session.launch_good + 1 } }
          else if s3.launch_max_jerk_sq < OK_LAUNCH_SMOOTHNESS_SQ then
            { s3 with session := { s3.session with launch_ok := s3.session.launch_ok + 1 } }
          else
            { s3 with session := { s3.session with launch_poor := s3.session.launch_poor + 1 } }
        some { s4 with
          session := { s4.session with launch_count := s4.session.launch_count + 1 }
          is_launching := false }
      else some s3
  else some s1

/-- `_detect_shift` with checked smoothness computation. -/
def detectShiftChecked (s : TrackerState) (rpm : ℚ) (gear : ℤ) (clutch neutral : Bool) :
    Option TrackerState :=
  if gear = 0 ∨ neutral = true then some s
  else if 100 < (s.frame : ℤ) - (s.clutch_release_frame : ℤ) then some s
  else if gear ≠ s.gear_before_clutch ∧ 0 < s.gear_before_clutch ∧ clutch = false then
    (calculateJerkSqChecked s.accel_history).bind fun smoothness =>
      let s1 := shiftRecordGear s gear smoothness
      let graded := gradeShift s1 rpm gear smoothness
      some { graded.1 with
        last_shift_smoothness_sq := smoothness
        last_shift_grade := graded.2
        last_shift_frame := graded.1.frame
        clutch_release_frame := 0
        gear_before_clutch := 0 }
  else some s

/-- `update` with every fallible operation checked. -/
def updateChecked (s0 : TrackerState) (inp : TelemetryInput) :
    Option (TrackerState × List SaveEvent) :=
  let in_gear := !inp.neutral && !inp.clutch
  let s := preUpdate s0 inp
  let s := detectStall s inp.rpm inp.neutral
  let s := detectLug s inp.rpm inp.throttle inp.speed in_gear
  (detectLaunchChecked s inp.rpm inp.speed inp.clutch inp.neutral).bind fun sa =>
    (detectShiftChecked sa inp.rpm inp.gear inp.clutch inp.neutral).bind fun sb =>
      some (postUpdate sb inp)

lemma gear_ratios_eq_some (gear : ℤ) (h1 : 1 ≤ gear) (h6 : gear ≤ 6) :
    ∃ r : ℚ, BRZ_GEAR_RATIOS gear = some r ∧ 0 < r := by
  interval_cases gear <;> exact ⟨_, rfl, by norm_num⟩

lemma gear_ratios_eq_none (gear : ℤ) (h : ¬ (1 ≤ gear ∧ gear ≤ 6)) :
    BRZ_GEAR_RATIOS gear = none := by
  unfold BRZ_GEAR_RATIOS
  split_ifs with h1 h2 h3 h4 h5 h6 <;> first | rfl | (exfalso; omega)

/-- C3: kinematic round trip.  For a valid gear and positive speed the two
kinematic maps are mutually inverse (exactly, over `ℚ`); outside the valid
domain both return 0. -/
theorem kinematic_round_trip (speed rpm : ℚ) (gear : ℤ) :
    (1 ≤ gear → gear ≤ 6 → 0 < speed →
      speed_for_rpm_and_gear (rpm_for_speed_and_gear speed gear) gear = speed) ∧
    (¬ (1 ≤ gear ∧ gear ≤ 6) → rpm_for_speed_and_gear speed gear = 0) ∧
    (¬ (1 ≤ gear ∧ gear ≤ 6) → speed_for_rpm_and_gear rpm gear = 0) ∧
    (speed ≤ 0 → rpm_for_speed_and_gear speed gear = 0) ∧
    (rpm ≤ 0 → speed_for_rpm_and_gear rpm gear = 0) := by
  refine ⟨?_, ?_, ?_, ?_, ?_⟩
  · intro h1 h6 hs
    obtain ⟨r, hr, hrpos⟩ := gear_ratios_eq_some gear h1 h6
    unfold rpm_for_speed_and_gear speed_for_rpm_and_gear
    rw [hr]
    simp only
    rw [if_neg (not_le.mpr hs)]
    have hrpm : 0 < (speed * BRZ_FINAL_DRIVE * r * 60) / BRZ_TIRE_CIRCUMFERENCE := by
      unfold BRZ_FINAL_DRIVE BRZ_TIRE_CIRCUMFERENCE
      positivity
    rw [if_neg (not_le.mpr hrpm)]
    unfold BRZ_FINAL_DRIVE BRZ_TIRE_CIRCUMFERENCE
    field_simp
    ring
  · intro h
    unfold rpm_for_speed_and_gear
    rw [gear_ratios_eq_none gear h]
  · intro h
    unfold speed_for_rpm_and_gear
    rw [gear_ratios_eq_none gear h]
  · intro h
    unfold rpm_for_speed_and_gear
    cases hg : BRZ_GEAR_RATIOS gear with
    | none => rfl
    | some r => simp [hg, h]
  · intro h
    unfold speed_for_rpm_and_gear
    cases hg : BRZ_GEAR_RATIOS gear with
    | none => rfl
    | some r => simp [hg, h]

/-- C3 witness: concrete round trip in gear 3 at 10 m/s, plus the invalid-domain
zeros at gear 7 and speed 0. -/
theorem kinematic_round_trip_witness :
    speed_for_rpm_and_gear (rpm_for_speed_and_gear 10 3) 3 = 10 ∧
    rpm_for_speed_and_gear 10 7 = 0 ∧
    speed_for_rpm_and_gear 0 3 = 0 :=
  ⟨(kinematic_round_trip 10 0 3).1 (by decide) (by decide) (by decide),
   (kinematic_round_trip 10 0 7).2.1 (by decide),
   (kinematic_round_trip 10 0 3).2.2.2.2 (by decide)⟩

lemma popVariance_const (l : List ℚ) (c : ℚ) (hc : ∀ x ∈ l, x = c) :
    popVariance l = 0 := by
  have hsum : ∀ m : List ℚ, (∀ x ∈ m, x = c) → m.sum = m.length * c := by
    intro m hm
    induction m with
    | nil => simp
    | cons b bs ih =>
        have hb : b = c := hm b (by simp)
        have hbs : bs.sum = bs.length * c := ih (fun x hx => hm x (by simp [hx]))
        simp [hb, hbs]
        ring
  cases l with
  | nil => simp [popVariance]
  | cons b bs =>
      have hlen : ((b :: bs).length : ℚ) ≠ 0 := by
        simp
        positivity
      have hmean : listMean (b :: bs) = c := by
        unfold listMean
        rw [hsum _ hc]
        exact mul_div_cancel_left₀ c hlen
      unfold popVariance
      rw [hmean]
      have hmap : ((b :: bs).map fun x => (x - c) ^ 2) = (b :: bs).map fun _ => (0 : ℚ) := by
        apply List.map_congr_left
        intro x hx
        rw [hc x hx]
        ring
      rw [hmap]
      simp

lemma last50_const (l : List ℚ) (c : ℚ) (hc : ∀ x ∈ l, x = c) :
    ∀ x ∈ last50 l, x = c := by
  intro x hx
  exact hc x (List.drop_subset _ l hx)

/-- C5: the smoothness metric is 0 with fewer than 10 buffered samples;
with at least 10 it is the population standard deviation of the most recent
up-to-50 samples; and for a buffer of identical values it is 0. -/
theorem calculate_jerk_spec (h : List ℚ) :
    (h.length < 10 → calculateJerk h = 0) ∧
    (10 ≤ h.length → calculateJerk h = Real.sqrt ((popVariance (last50 h) : ℚ) : ℝ)) ∧
    (∀ c : ℚ, (∀ x ∈ h, x = c) → calculateJerk h = 0) := by
  refine ⟨?_, ?_, ?_⟩
  · intro hlt
    unfold calculateJerk calculateJerkSq
    rw [if_pos hlt]
    simp [Real.sqrt_zero]
  · intro hge
    unfold calculateJerk calculateJerkSq
    rw [if_neg (not_lt.mpr hge)]
  · intro c hc
    unfold calculateJerk calculateJerkSq
    by_cases hlt : h.length < 10
    · rw [if_pos hlt]; simp [Real.sqrt_zero]
    · rw [if_neg hlt, popVariance_const (last50 h) c (last50_const h c hc)]
      simp [Real.sqrt_zero]

/-- C5 witness: a 12-sample buffer of identical accelerations grades as
perfectly smooth, and a 5-sample buffer is below the history floor. -/
theorem calculate_jerk_spec_witness :
    calculateJerk (List.replicate 12 (7/4 : ℚ)) = 0 ∧
    calculateJerk (List.replicate 5 (3 : ℚ)) = 0 :=
  ⟨(calculate_jerk_spec (List.replicate 12 (7/4 : ℚ))).2.2 (7/4)
      (by intro x hx; exact List.eq_of_mem_replicate hx),
   (calculate_jerk_spec (List.replicate 5 (3 : ℚ))).1 (by decide)⟩

/-! ## Projection lemmas: which fields each stage of `update` touches -/

@[simp] lemma preUpdate_session (s : TrackerState) (inp : TelemetryInput) :
    (preUpdate s inp).session = s.session := by
  simp only [preUpdate]; split_ifs <;> rfl

@[simp] lemma preUpdate_prev_rpm (s : TrackerState) (inp : TelemetryInput) :
    (preUpdate s inp).prev_rpm = s.prev_rpm := by
  simp only [preUpdate]; split_ifs <;> rfl

@[simp] lemma preUpdate_prev_speed (s : TrackerState) (inp : TelemetryInput) :
    (preUpdate s inp).prev_speed = s.prev_speed := by
  simp only [preUpdate]; split_ifs <;> rfl

@[simp] lemma preUpdate_frame (s : TrackerState) (inp : TelemetryInput) :
    (preUpdate s inp).frame = s.frame + 1 := by
  simp only [preUpdate]; split_ifs <;> rfl

@[simp] lemma preUpdate_is_lugging (s : TrackerState) (inp : TelemetryInput) :
    (preUpdate s inp).is_lugging = s.is_lugging := by
  simp only [preUpdate]; split_ifs <;> rfl

@[simp] lemma preUpdate_lug_start_frame (s : TrackerState) (inp : TelemetryInput) :
    (preUpdate s inp).lug_start_frame = s.lug_start_frame := by
  simp only [preUpdate]; split_ifs <;> rfl

@[simp] lemma preUpdate_is_launching (s : TrackerState) (inp : TelemetryInput) :
    (preUpdate s inp).is_launching = s.is_launching := by
  simp only [preUpdate]; split_ifs <;> rfl

@[simp] lemma preUpdate_historical (s : TrackerState) (inp : TelemetryInput) :
    (preUpdate s inp).historical = s.historical := by
  simp only [preUpdate]; split_ifs <;> rfl

@[simp] lemma preUpdate_live_update_counter (s : TrackerState) (inp : TelemetryInput) :
    (preUpdate s inp).live_update_counter = s.live_update_counter := by
  simp only [preUpdate]; split_ifs <;> rfl

@[simp] lemma postUpdate_fst_session (s : TrackerState) (inp : TelemetryInput) :
    (postUpdate s inp).1.session = s.session := by
  simp only [postUpdate]; split_ifs <;> rfl

@[simp] lemma postUpdate_fst_prev_rpm (s : TrackerState) (inp : TelemetryInput) :
    (postUpdate s inp).1.prev_rpm = inp.rpm := by
  simp only [postUpdate]; split_ifs <;> rfl

@[simp] lemma postUpdate_fst_frame (s : TrackerState) (inp : TelemetryInput) :
    (postUpdate s inp).1.frame = s.frame := by
  simp only [postUpdate]; split_ifs <;> rfl

@[simp] lemma postUpdate_fst_is_lugging (s : TrackerState) (inp : TelemetryInput) :
    (postUpdate s inp).1.is_lugging = s.is_lugging := by
  simp only [postUpdate]; split_ifs <;> rfl

@[simp] lemma postUpdate_fst_lug_start_frame (s : TrackerState) (inp : TelemetryInput) :
    (postUpdate s inp).1.lug_start_frame = s.lug_start_frame := by
  simp only [postUpdate]; split_ifs <;> rfl

@[simp] lemma postUpdate_fst_is_launching (s : TrackerState) (inp : TelemetryInput) :
    (postUpdate s inp).1.is_launching = s.is_launching := by
  simp only [postUpdate]; split_ifs <;> rfl

@[simp] lemma postUpdate_fst_historical (s : TrackerState) (inp : TelemetryInput) :
    (postUpdate s inp).1.historical = s.historical := by
  simp only [postUpdate]; split_ifs <;> rfl

@[simp] lemma postUpdate_snd (s : TrackerState) (inp : TelemetryInput) :
    (postUpdate s inp).2 =
      if 500 ≤ s.live_update_counter + 1 then [SaveEvent.sessionStats, SaveEvent.liveStats]
      else [] := by
  simp only [postUpdate]; split_ifs <;> rfl

/-! Stall detector: closed forms for the fields it can change, and
no-touch lemmas for the rest. -/

lemma detectStall_stall_count (s : TrackerState) (rpm : ℚ) (neutral : Bool) :
    (detectStall s rpm neutral).session.stall_count =
      if rpm < STALL_RPM_THRESHOLD ∧ STALL_RPM_THRESHOLD ≤ s.prev_rpm ∧ neutral = false
      then s.session.stall_count + 1 else s.session.stall_count := by
  simp only [detectStall]
  split_ifs <;> first | rfl | tauto

lemma detectStall_launch_stalled (s : TrackerState) (rpm : ℚ) (neutral : Bool) :
    (detectStall s rpm neutral).session.launch_stalled =
      if rpm < STALL_RPM_THRESHOLD ∧ STALL_RPM_THRESHOLD ≤ s.prev_rpm ∧ neutral = false ∧
         s.is_launching = true
      then s.session.launch_stalled + 1 else s.session.launch_stalled := by
  simp only [detectStall]
  split_ifs <;> first | rfl | tauto

lemma detectStall_launch_count (s : TrackerState) (rpm : ℚ) (neutral : Bool) :
    (detectStall s rpm neutral).session.launch_count =
      if rpm < STALL_RPM_THRESHOLD ∧ STALL_RPM_THRESHOLD ≤ s.prev_rpm ∧ neutral = false ∧
         s.is_launching = true
      then s.session.launch_count + 1 else s.session.launch_count := by
  simp only [detectStall]
  split_ifs <;> first | rfl | tauto

lemma detectStall_is_launching (s : TrackerState) (rpm : ℚ) (neutral : Bool) :
    (detectStall s rpm neutral).is_launching =
      if rpm < STALL_RPM_THRESHOLD ∧ STALL_RPM_THRESHOLD ≤ s.prev_rpm ∧ neutral = false
      then false else s.is_launching := by
  simp only [detectStall]
  split_ifs <;> simp_all

@[simp] lemma detectStall_prev_rpm (s : TrackerState) (rpm : ℚ) (neutral : Bool) :
    (detectStall s rpm neutral).prev_rpm = s.prev_rpm := by
  simp only [detectStall]; split_ifs <;> rfl

@[simp] lemma detectStall_prev_speed (s : TrackerState) (rpm : ℚ) (neutral : Bool) :
    (detectStall s rpm neutral).prev_speed = s.prev_speed := by
  simp only [detectStall]; split_ifs <;> rfl

@[simp] lemma detectStall_frame (s : TrackerState) (rpm : ℚ) (neutral : Bool) :
    (detectStall s rpm neutral).frame = s.frame := by
  simp only [detectStall]; split_ifs <;> rfl

@[simp] lemma detectStall_is_lugging (s : TrackerState) (rpm : ℚ) (neutral : Bool) :
    (detectStall s rpm neutral).is_lugging = s.is_lugging := by
  simp only [detectStall]; split_ifs <;> rfl

@[simp] lemma detectStall_lug_start_frame (s : TrackerState) (rpm : ℚ) (neutral : Bool) :
    (detectStall s rpm neutral).lug_start_frame = s.lug_start_frame := by
  simp only [detectStall]; split_ifs <;> rfl

@[simp] lemma detectStall_lug_count (s : TrackerState) (rpm : ℚ) (neutral : Bool) :
    (detectStall s rpm neutral).session.lug_count = s.session.lug_count := by
  simp only [detectStall]; split_ifs <;> rfl

@[simp] lemma detectStall_lug_duration (s : TrackerState) (rpm : ℚ) (neutral : Bool) :
    (detectStall s rpm neutral).session.lug_duration_total = s.session.lug_duration_total := by
  simp only [detectStall]; split_ifs <;> rfl

@[simp] lemma detectStall_launch_good (s : TrackerState) (rpm : ℚ) (neutral : Bool) :
    (detectStall s rpm neutral).session.launch_good = s.session.launch_good := by
  simp only [detectStall]; split_ifs <;> rfl

@[simp] lemma detectStall_launch_ok (s : TrackerState) (rpm : ℚ) (neutral : Bool) :
    (detectStall s rpm neutral).session.launch_ok = s.session.launch_ok := by
  simp only [detectStall]; split_ifs <;> rfl

@[simp] lemma detectStall_launch_poor (s : TrackerState) (rpm : ℚ) (neutral : Bool) :
    (detectStall s rpm neutral).session.launch_poor = s.session.launch_poor := by
  simp only [detectStall]; split_ifs <;> rfl

@[simp] lemma detectStall_historical (s : TrackerState) (rpm : ℚ) (neutral : Bool) :
    (detectStall s rpm neutral).historical = s.historical := by
  simp only [detectStall]; split_ifs <;> rfl

@[simp] lemma detectStall_live_update_counter (s : TrackerState) (rpm : ℚ) (neutral : Bool) :
    (detectStall s rpm neutral).live_update_counter = s.live_update_counter := by
  simp only [detectStall]; split_ifs <;> rfl

/-! Lug detector: closed forms and no-touch lemmas. -/

lemma detectLug_lug_count (s : TrackerState) (rpm throttle speed : ℚ) (in_gear : Bool) :
    (detectLug s rpm throttle speed in_gear).session.lug_count =
      if isLuggingNow rpm throttle speed in_gear && !s.is_lugging
      then s.session.lug_count + 1 else s.session.lug_count := by
  simp only [detectLug]
  split_ifs <;> first | rfl | tauto

lemma detectLug_lug_duration (s : TrackerState) (rpm throttle speed : ℚ) (in_gear : Bool) :
    (detectLug s rpm throttle speed in_gear).session.lug_duration_total =
      if !(isLuggingNow rpm throttle speed in_gear) && s.is_lugging
      then s.session.lug_duration_total + ((s.frame : ℚ) - (s.lug_start_frame : ℚ)) * DT_CTRL
      else s.session.lug_duration_total := by
  simp only [detectLug]
  split_ifs with h1 h2 h3 h4 <;> simp_all

lemma detectLug_is_lugging (s : TrackerState) (rpm throttle speed : ℚ) (in_gear : Bool) :
    (detectLug s rpm throttle speed in_gear).is_lugging =
      isLuggingNow rpm throttle speed in_gear := by
  simp only [detectLug]
  split_ifs with h1 h2 <;>
    (cases hnow : isLuggingNow rpm throttle speed in_gear <;> simp_all)

lemma detectLug_lug_start_frame (s : TrackerState) (rpm throttle speed : ℚ) (in_gear : Bool) :
    (detectLug s rpm throttle speed in_gear).lug_start_frame =
      if isLuggingNow rpm throttle speed in_gear && !s.is_lugging
      then s.frame else s.lug_start_frame := by
  simp only [detectLug]
  split_ifs <;> first | rfl | tauto

@[simp] lemma detectLug_stall_count (s : TrackerState) (rpm throttle speed : ℚ) (in_gear : Bool) :
    (detectLug s rpm throttle speed in_gear).session.stall_count = s.session.stall_count := by
  simp only [detectLug]; split_ifs <;> rfl

@[simp] lemma detectLug_launch_stalled (s : TrackerState) (rpm throttle speed : ℚ) (in_gear : Bool) :
    (detectLug s rpm throttle speed in_gear).session.launch_stalled = s.session.launch_stalled := by
  simp only [detectLug]; split_ifs <;> rfl

@[simp] lemma detectLug_launch_count (s : TrackerState) (rpm throttle speed : ℚ) (in_gear : Bool) :
    (detectLug s rpm throttle speed in_gear).session.launch_count = s.session.launch_count := by
  simp only [detectLug]; split_ifs <;> rfl

@[simp] lemma detectLug_launch_good (s : TrackerState) (rpm throttle speed : ℚ) (in_gear : Bool) :
    (detectLug s rpm throttle speed in_gear).session.launch_good = s.session.launch_good := by
  simp only [detectLug]; split_ifs <;> rfl

@[simp] lemma detectLug_launch_ok (s : TrackerState) (rpm throttle speed : ℚ) (in_gear : Bool) :
    (detectLug s rpm throttle speed in_gear).session.launch_ok = s.session.launch_ok := by
  simp only [detectLug]; split_ifs <;> rfl

@[simp] lemma detectLug_launch_poor (s : TrackerState) (rpm throttle speed : ℚ) (in_gear : Bool) :
    (detectLug s rpm throttle speed in_gear).session.launch_poor = s.session.launch_poor := by
  simp only [detectLug]; split_ifs <;> rfl

@[simp] lemma detectLug_is_launching (s : TrackerState) (rpm throttle speed : ℚ) (in_gear : Bool) :
    (detectLug s rpm throttle speed in_gear).is_launching = s.is_launching := by
  simp only [detectLug]; split_ifs <;> rfl

@[simp] lemma detectLug_prev_rpm (s : TrackerState) (rpm throttle speed : ℚ) (in_gear : Bool) :
    (detectLug s rpm throttle speed in_gear).prev_rpm = s.prev_rpm := by
  simp only [detectLug]; split_ifs <;> rfl

@[simp] lemma detectLug_prev_speed (s : TrackerState) (rpm throttle speed : ℚ) (in_gear : Bool) :
    (detectLug s rpm throttle speed in_gear).prev_speed = s.prev_speed := by
  simp only [detectLug]; split_ifs <;> rfl

@[simp] lemma detectLug_frame (s : TrackerState) (rpm throttle speed : ℚ) (in_gear : Bool) :
    (detectLug s rpm throttle speed in_gear).frame = s.frame := by
  simp only [detectLug]; split_ifs <;> rfl

@[simp] lemma detectLug_historical (s : TrackerState) (rpm throttle speed : ℚ) (in_gear : Bool) :
    (detectLug s rpm throttle speed in_gear).historical = s.historical := by
  simp only [detectLug]; split_ifs <;> rfl

@[simp] lemma detectLug_live_update_counter (s : TrackerState) (rpm throttle speed : ℚ)
    (in_gear : Bool) :
    (detectLug s rpm throttle speed in_gear).live_update_counter = s.live_update_counter := by
  simp only [detectLug]; split_ifs <;> rfl

@[simp] lemma detectLug_accel_history (s : TrackerState) (rpm throttle speed : ℚ)
    (in_gear : Bool) :
    (detectLug s rpm throttle speed in_gear).accel_history = s.accel_history := by
  simp only [detectLug]; split_ifs <;> rfl

/-! Launch detector: no-touch lemmas and the no-launch-in-progress case. -/

@[simp] lemma detectLaunch_stall_count (s : TrackerState) (rpm speed : ℚ) (clutch neutral : Bool) :
    (detectLaunch s rpm speed clutch neutral).session.stall_count = s.session.stall_count := by
  simp only [detectLaunch]; split_ifs <;> first | rfl | simp_all

@[simp] lemma detectLaunch_lug_count (s : TrackerState) (rpm speed : ℚ) (clutch neutral : Bool) :
    (detectLaunch s rpm speed clutch neutral).session.lug_count = s.session.lug_count := by
  simp only [detectLaunch]; split_ifs <;> first | rfl | simp_all

@[simp] lemma detectLaunch_lug_duration (s : TrackerState) (rpm speed : ℚ) (clutch neutral : Bool) :
    (detectLaunch s rpm speed clutch neutral).session.lug_duration_total =
      s.session.lug_duration_total := by
  simp only [detectLaunch]; split_ifs <;> first | rfl | simp_all

@[simp] lemma detectLaunch_is_lugging (s : TrackerState) (rpm speed : ℚ) (clutch neutral : Bool) :
    (detectLaunch s rpm speed clutch neutral).is_lugging = s.is_lugging := by
  simp only [detectLaunch]; split_ifs <;> first | rfl | simp_all

@[simp] lemma detectLaunch_lug_start_frame (s : TrackerState) (rpm speed : ℚ)
    (clutch neutral : Bool) :
    (detectLaunch s rpm speed clutch neutral).lug_start_frame = s.lug_start_frame := by
  simp only [detectLaunch]; split_ifs <;> first | rfl | simp_all

@[simp] lemma detectLaunch_launch_stalled (s : TrackerState) (rpm speed : ℚ)
    (clutch neutral : Bool) :
    (detectLaunch s rpm speed clutch neutral).session.launch_stalled =
      s.session.launch_stalled := by
  simp only [detectLaunch]; split_ifs <;> first | rfl | simp_all

@[simp] lemma detectLaunch_historical (s : TrackerState) (rpm speed : ℚ) (clutch neutral : Bool) :
    (detectLaunch s rpm speed clutch neutral).historical = s.historical := by
  simp only [detectLaunch]; split_ifs <;> first | rfl | simp_all

@[simp] lemma detectLaunch_prev_rpm (s : TrackerState) (rpm speed : ℚ) (clutch neutral : Bool) :
    (detectLaunch s rpm speed clutch neutral).prev_rpm = s.prev_rpm := by
  simp only [detectLaunch]; split_ifs <;> first | rfl | simp_all

@[simp] lemma detectLaunch_prev_speed (s : TrackerState) (rpm speed : ℚ) (clutch neutral : Bool) :
    (detectLaunch s rpm speed clutch neutral).prev_speed = s.prev_speed := by
  simp only [detectLaunch]; split_ifs <;> first | rfl | simp_all

@[simp] lemma detectLaunch_frame (s : TrackerState) (rpm speed : ℚ) (clutch neutral : Bool) :
    (detectLaunch s rpm speed clutch neutral).frame = s.frame := by
  simp only [detectLaunch]; split_ifs <;> first | rfl | simp_all

@[simp] lemma detectLaunch_live_update_counter (s : TrackerState) (rpm speed : ℚ)
    (clutch neutral : Bool) :
    (detectLaunch s rpm speed clutch neutral).live_update_counter = s.live_update_counter := by
  simp only [detectLaunch]; split_ifs <;> first | rfl | simp_all

@[simp] lemma detectLaunch_accel_history (s : TrackerState) (rpm speed : ℚ)
    (clutch neutral : Bool) :
    (detectLaunch s rpm speed clutch neutral).accel_history = s.accel_history := by
  simp only [detectLaunch]; split_ifs <;> first | rfl | simp_all

/-- If no launch is in progress at entry, the launch counters cannot change
this tick: a launch freshly started here needs `speed < 0.5` to start and
`speed ≥ 5.0` to complete, which cannot both hold. -/
lemma detectLaunch_counts_of_not_launching (s : TrackerState) (rpm speed : ℚ)
    (clutch neutral : Bool) (h : s.is_launching = false) :
    (detectLaunch s rpm speed clutch neutral).session.launch_count = s.session.launch_count ∧
    (detectLaunch s rpm speed clutch neutral).session.launch_good = s.session.launch_good ∧
    (detectLaunch s rpm speed clutch neutral).session.launch_ok = s.session.launch_ok ∧
    (detectLaunch s rpm speed clutch neutral).session.launch_poor = s.session.launch_poor := by
  simp only [detectLaunch]
  split_ifs with h1 h2 h3 h4 h5 <;> first | simp_all | (exfalso; simp_all; norm_num at h1 h3; linarith)

/-! Shift detector helpers: no-touch lemmas. -/

@[simp] lemma shiftRecordGear_session (s : TrackerState) (gear : ℤ) (m : ℚ) :
    (shiftRecordGear s gear m).session = s.session := by
  simp only [shiftRecordGear]; split_ifs <;> rfl

@[simp] lemma shiftRecordGear_frame (s : TrackerState) (gear : ℤ) (m : ℚ) :
    (shiftRecordGear s gear m).frame = s.frame := by
  simp only [shiftRecordGear]; split_ifs <;> rfl

@[simp] lemma shiftRecordGear_prev_rpm (s : TrackerState) (gear : ℤ) (m : ℚ) :
    (shiftRecordGear s gear m).prev_rpm = s.prev_rpm := by
  simp only [shiftRecordGear]; split_ifs <;> rfl

@[simp] lemma shiftRecordGear_prev_speed (s : TrackerState) (gear : ℤ) (m : ℚ) :
    (shiftRecordGear s gear m).prev_speed = s.prev_speed := by
  simp only [shiftRecordGear]; split_ifs <;> rfl

@[simp] lemma shiftRecordGear_is_lugging (s : TrackerState) (gear : ℤ) (m : ℚ) :
    (shiftRecordGear s gear m).is_lugging = s.is_lugging := by
  simp only [shiftRecordGear]; split_ifs <;> rfl

@[simp] lemma shiftRecordGear_is_launching (s : TrackerState) (gear : ℤ) (m : ℚ) :
    (shiftRecordGear s gear m).is_launching = s.is_launching := by
  simp only [shiftRecordGear]; split_ifs <;> rfl

@[simp] lemma shiftRecordGear_lug_start_frame (s : TrackerState) (gear : ℤ) (m : ℚ) :
    (shiftRecordGear s gear m).lug_start_frame = s.lug_start_frame := by
  simp only [shiftRecordGear]; split_ifs <;> rfl

@[simp] lemma shiftRecordGear_gear_before_clutch (s : TrackerState) (gear : ℤ) (m : ℚ) :
    (shiftRecordGear s gear m).gear_before_clutch = s.gear_before_clutch := by
  simp only [shiftRecordGear]; split_ifs <;> rfl

@[simp] lemma shiftRecordGear_live_update_counter (s : TrackerState) (gear : ℤ) (m : ℚ) :
    (shiftRecordGear s gear m).live_update_counter = s.live_update_counter := by
  simp only [shiftRecordGear]; split_ifs <;> rfl

@[simp] lemma shiftRecordGear_hist_total_stalls (s : TrackerState) (gear : ℤ) (m : ℚ) :
    (shiftRecordGear s gear m).historical.total_stalls = s.historical.total_stalls := by
  simp only [shiftRecordGear]; split_ifs <;> rfl

@[simp] lemma shiftRecordGear_hist_total_lugs (s : TrackerState) (gear : ℤ) (m : ℚ) :
    (shiftRecordGear s gear m).historical.total_lugs = s.historical.total_lugs := by
  simp only [shiftRecordGear]; split_ifs <;> rfl

@[simp] lemma shiftRecordGear_hist_total_upshifts (s : TrackerState) (gear : ℤ) (m : ℚ) :
    (shiftRecordGear s gear m).historical.total_upshifts = s.historical.total_upshifts := by
  simp only [shiftRecordGear]; split_ifs <;> rfl

@[simp] lemma shiftRecordGear_hist_total_downshifts (s : TrackerState) (gear : ℤ) (m : ℚ) :
    (shiftRecordGear s gear m).historical.total_downshifts = s.historical.total_downshifts := by
  simp only [shiftRecordGear]; split_ifs <;> rfl

@[simp] lemma shiftRecordGear_hist_total_launches (s : TrackerState) (gear : ℤ) (m : ℚ) :
    (shiftRecordGear s gear m).historical.total_launches = s.historical.total_launches := by
  simp only [shiftRecordGear]; split_ifs <;> rfl

@[simp] lemma shiftRecordGear_hist_launches_stalled (s : TrackerState) (gear : ℤ) (m : ℚ) :
    (shiftRecordGear s gear m).historical.launches_stalled = s.historical.launches_stalled := by
  simp only [shiftRecordGear]; split_ifs <;> rfl

@[simp] lemma shiftRecordGear_hist_session_history (s : TrackerState) (gear : ℤ) (m : ℚ) :
    (shiftRecordGear s gear m).historical.session_history = s.historical.session_history := by
  simp only [shiftRecordGear]; split_ifs <;> rfl

@[simp] lemma gradeShift_stall_count (s1 : TrackerState) (rpm : ℚ) (gear : ℤ) (m : ℚ) :
    (gradeShift s1 rpm gear m).1.session.stall_count = s1.session.stall_count := by
  simp only [gradeShift]; split_ifs <;> rfl

@[simp] lemma gradeShift_lug_count (s1 : TrackerState) (rpm : ℚ) (gear : ℤ) (m : ℚ) :
    (gradeShift s1 rpm gear m).1.session.lug_count = s1.session.lug_count := by
  simp only [gradeShift]; split_ifs <;> rfl

@[simp] lemma gradeShift_lug_duration (s1 : TrackerState) (rpm : ℚ) (gear : ℤ) (m : ℚ) :
    (gradeShift s1 rpm gear m).1.session.lug_duration_total =
      s1.session.lug_duration_total := by
  simp only [gradeShift]; split_ifs <;> rfl

@[simp] lemma gradeShift_launch_count (s1 : TrackerState) (rpm : ℚ) (gear : ℤ) (m : ℚ) :
    (gradeShift s1 rpm gear m).1.session.launch_count = s1.session.launch_count := by
  simp only [gradeShift]; split_ifs <;> rfl

@[simp] lemma gradeShift_launch_good (s1 : TrackerState) (rpm : ℚ) (gear : ℤ) (m : ℚ) :
    (gradeShift s1 rpm gear m).1.session.launch_good = s1.session.launch_good := by
  simp only [gradeShift]; split_ifs <;> rfl

@[simp] lemma gradeShift_launch_ok (s1 : TrackerState) (rpm : ℚ) (gear : ℤ) (m : ℚ) :
    (gradeShift s1 rpm gear m).1.session.launch_ok = s1.session.launch_ok := by
  simp only [gradeShift]; split_ifs <;> rfl

@[simp] lemma gradeShift_launch_poor (s1 : TrackerState) (rpm : ℚ) (gear : ℤ) (m : ℚ) :
    (gradeShift s1 rpm gear m).1.session.launch_poor = s1.session.launch_poor := by
  simp only [gradeShift]; split_ifs <;> rfl

@[simp] lemma gradeShift_launch_stalled (s1 : TrackerState) (rpm : ℚ) (gear : ℤ) (m : ℚ) :
    (gradeShift s1 rpm gear m).1.session.launch_stalled = s1.session.launch_stalled := by
  simp only [gradeShift]; split_ifs <;> rfl

@[simp] lemma gradeShift_is_lugging (s1 : TrackerState) (rpm : ℚ) (gear : ℤ) (m : ℚ) :
    (gradeShift s1 rpm gear m).1.is_lugging = s1.is_lugging := by
  simp only [gradeShift]; split_ifs <;> rfl

@[simp] lemma gradeShift_is_launching (s1 : TrackerState) (rpm : ℚ) (gear : ℤ) (m : ℚ) :
    (gradeShift s1 rpm gear m).1.is_launching = s1.is_launching := by
  simp only [gradeShift]; split_ifs <;> rfl

@[simp] lemma gradeShift_lug_start_frame (s1 : TrackerState) (rpm : ℚ) (gear : ℤ) (m : ℚ) :
    (gradeShift s1 rpm gear m).1.lug_start_frame = s1.lug_start_frame := by
  simp only [gradeShift]; split_ifs <;> rfl

@[simp] lemma gradeShift_frame (s1 : TrackerState) (rpm : ℚ) (gear : ℤ) (m : ℚ) :
    (gradeShift s1 rpm gear m).1.frame = s1.frame := by
  simp only [gradeShift]; split_ifs <;> rfl

@[simp] lemma gradeShift_prev_rpm (s1 : TrackerState) (rpm : ℚ) (gear : ℤ) (m : ℚ) :
    (gradeShift s1 rpm gear m).1.prev_rpm = s1.prev_rpm := by
  simp only [gradeShift]; split_ifs <;> rfl

@[simp] lemma gradeShift_live_update_counter (s1 : TrackerState) (rpm : ℚ) (gear : ℤ) (m : ℚ) :
    (gradeShift s1 rpm gear m).1.live_update_counter = s1.live_update_counter := by
  simp only [gradeShift]; split_ifs <;> rfl

@[simp] lemma gradeShift_historical (s1 : TrackerState) (rpm : ℚ) (gear : ℤ) (m : ℚ) :
    (gradeShift s1 rpm gear m).1.historical = s1.historical := by
  simp only [gradeShift]; split_ifs <;> rfl

/-! Shift detector: no-touch lemmas (it changes only shift counters, the
per-gear dictionaries, and the last-shift/clutch markers). -/

@[simp] lemma detectShift_stall_count (s : TrackerState) (rpm : ℚ) (gear : ℤ)
    (clutch neutral : Bool) :
    (detectShift s rpm gear clutch neutral).session.stall_count = s.session.stall_count := by
  simp only [detectShift]; split_ifs <;> first | rfl | simp_all

@[simp] lemma detectShift_lug_count (s : TrackerState) (rpm : ℚ) (gear : ℤ)
    (clutch neutral : Bool) :
    (detectShift s rpm gear clutch neutral).session.lug_count = s.session.lug_count := by
  simp only [detectShift]; split_ifs <;> first | rfl | simp_all

@[simp] lemma detectShift_lug_duration (s : TrackerState) (rpm : ℚ) (gear : ℤ)
    (clutch neutral : Bool) :
    (detectShift s rpm gear clutch neutral).session.lug_duration_total =
      s.session.lug_duration_total := by
  simp only [detectShift]; split_ifs <;> first | rfl | simp_all

@[simp] lemma detectShift_launch_count (s : TrackerState) (rpm : ℚ) (gear : ℤ)
    (clutch neutral : Bool) :
    (detectShift s rpm gear clutch neutral).session.launch_count = s.session.launch_count := by
  simp only [detectShift]; split_ifs <;> first | rfl | simp_all

@[simp] lemma detectShift_launch_good (s : TrackerState) (rpm : ℚ) (gear : ℤ)
    (clutch neutral : Bool) :
    (detectShift s rpm gear clutch neutral).session.launch_good = s.session.launch_good := by
  simp only [detectShift]; split_ifs <;> first | rfl | simp_all

@[simp] lemma detectShift_launch_ok (s : TrackerState) (rpm : ℚ) (gear : ℤ)
    (clutch neutral : Bool) :
    (detectShift s rpm gear clutch neutral).session.launch_ok = s.session.launch_ok := by
  simp only [detectShift]; split_ifs <;> first | rfl | simp_all

@[simp] lemma detectShift_launch_poor (s : TrackerState) (rpm : ℚ) (gear : ℤ)
    (clutch neutral : Bool) :
    (detectShift s rpm gear clutch neutral).session.launch_poor = s.session.launch_poor := by
  simp only [detectShift]; split_ifs <;> first | rfl | simp_all

@[simp] lemma detectShift_launch_stalled (s : TrackerState) (rpm : ℚ) (gear : ℤ)
    (clutch neutral : Bool) :
    (detectShift s rpm gear clutch neutral).session.launch_stalled = s.session.launch_stalled := by
  simp only [detectShift]; split_ifs <;> first | rfl | simp_all

@[simp] lemma detectShift_is_lugging (s : TrackerState) (rpm : ℚ) (gear : ℤ)
    (clutch neutral : Bool) :
    (detectShift s rpm gear clutch neutral).is_lugging = s.is_lugging := by
  simp only [detectShift]; split_ifs <;> first | rfl | simp_all

@[simp] lemma detectShift_is_launching (s : TrackerState) (rpm : ℚ) (gear : ℤ)
    (clutch neutral : Bool) :
    (detectShift s rpm gear clutch neutral).is_launching = s.is_launching := by
  simp only [detectShift]; split_ifs <;> first | rfl | simp_all

@[simp] lemma detectShift_lug_start_frame (s : TrackerState) (rpm : ℚ) (gear : ℤ)
    (clutch neutral : Bool) :
    (detectShift s rpm gear clutch neutral).lug_start_frame = s.lug_start_frame := by
  simp only [detectShift]; split_ifs <;> first | rfl | simp_all

@[simp] lemma detectShift_frame (s : TrackerState) (rpm : ℚ) (gear : ℤ)
    (clutch neutral : Bool) :
    (detectShift s rpm gear clutch neutral).frame = s.frame := by
  simp only [detectShift]; split_ifs <;> first | rfl | simp_all

@[simp] lemma detectShift_prev_rpm (s : TrackerState) (rpm : ℚ) (gear : ℤ)
    (clutch neutral : Bool) :
    (detectShift s rpm gear clutch neutral).prev_rpm = s.prev_rpm := by
  simp only [detectShift]; split_ifs <;> first | rfl | simp_all

@[simp] lemma detectShift_live_update_counter (s : TrackerState) (rpm : ℚ) (gear : ℤ)
    (clutch neutral : Bool) :
    (detectShift s rpm gear clutch neutral).live_update_counter = s.live_update_counter := by
  simp only [detectShift]; split_ifs <;> first | rfl | simp_all

@[simp] lemma detectShift_hist_total_stalls (s : TrackerState) (rpm : ℚ) (gear : ℤ)
    (clutch neutral : Bool) :
    (detectShift s rpm gear clutch neutral).historical.total_stalls =
      s.historical.total_stalls := by
  simp only [detectShift]; split_ifs <;> first | rfl | simp_all

@[simp] lemma detectShift_hist_total_lugs (s : TrackerState) (rpm : ℚ) (gear : ℤ)
    (clutch neutral : Bool) :
    (detectShift s rpm gear clutch neutral).historical.total_lugs = s.historical.total_lugs := by
  simp only [detectShift]; split_ifs <;> first | rfl | simp_all

@[simp] lemma detectShift_hist_total_upshifts (s : TrackerState) (rpm : ℚ) (gear : ℤ)
    (clutch neutral : Bool) :
    (detectShift s rpm gear clutch neutral).historical.total_upshifts =
      s.historical.total_upshifts := by
  simp only [detectShift]; split_ifs <;> first | rfl | simp_all

@[simp] lemma detectShift_hist_total_downshifts (s : TrackerState) (rpm : ℚ) (gear : ℤ)
    (clutch neutral : Bool) :
    (detectShift s rpm gear clutch neutral).historical.total_downshifts =
      s.historical.total_downshifts := by
  simp only [detectShift]; split_ifs <;> first | rfl | simp_all

@[simp] lemma detectShift_hist_total_launches (s : TrackerState) (rpm : ℚ) (gear : ℤ)
    (clutch neutral : Bool) :
    (detectShift s rpm gear clutch neutral).historical.total_launches =
      s.historical.total_launches := by
  simp only [detectShift]; split_ifs <;> first | rfl | simp_all

@[simp] lemma detectShift_hist_launches_stalled (s : TrackerState) (rpm : ℚ) (gear : ℤ)
    (clutch neutral : Bool) :
    (detectShift s rpm gear clutch neutral).historical.launches_stalled =
      s.historical.launches_stalled := by
  simp only [detectShift]; split_ifs <;> first | rfl | simp_all

@[simp] lemma detectShift_hist_session_history (s : TrackerState) (rpm : ℚ) (gear : ℤ)
    (clutch neutral : Bool) :
    (detectShift s rpm gear clutch neutral).historical.session_history =
      s.historical.session_history := by
  simp only [detectShift]; split_ifs <;> first | rfl | simp_all

/-! ## Stall claim (C4) -/

/-- C4: the stall counter increments exactly on a falling-edge crossing of the
300 rpm threshold while not in neutral; a low-rpm tick without a crossing
leaves it unchanged, and after any tick `prev_rpm` is the tick's rpm, so two
consecutive low-rpm ticks cannot increment twice; a stall while a launch is in
progress force-terminates the launch as stalled (stalled and total launch
counters both increment, the graded counters do not). -/
theorem stall_edge_spec (s : TrackerState) (inp inp' : TelemetryInput) :
    (inp.rpm < STALL_RPM_THRESHOLD → STALL_RPM_THRESHOLD ≤ s.prev_rpm → inp.neutral = false →
      (update s inp).1.session.stall_count = s.session.stall_count + 1) ∧
    (inp.rpm < STALL_RPM_THRESHOLD → s.prev_rpm < STALL_RPM_THRESHOLD →
      (update s inp).1.session.stall_count = s.session.stall_count) ∧
    ((update s inp).1.prev_rpm = inp.rpm) ∧
    (inp.rpm < STALL_RPM_THRESHOLD → inp'.rpm < STALL_RPM_THRESHOLD →
      (update (update s inp).1 inp').1.session.stall_count =
        (update s inp).1.session.stall_count) ∧
    (inp.rpm < STALL_RPM_THRESHOLD → STALL_RPM_THRESHOLD ≤ s.prev_rpm → inp.neutral = false →
      s.is_launching = true →
      (update s inp).1.session.launch_stalled = s.session.launch_stalled + 1 ∧
      (update s inp).1.session.launch_count = s.session.launch_count + 1 ∧
      (update s inp).1.session.launch_good = s.session.launch_good ∧
      (update s inp).1.session.launch_ok = s.session.launch_ok ∧
      (update s inp).1.session.launch_poor = s.session.launch_poor) := by
  refine ⟨?_, ?_, ?_, ?_, ?_⟩
  · intro h1 h2 h3
    simp [update, detectStall_stall_count, h1, h2, h3]
  · intro h1 h2
    simp [update, detectStall_stall_count, h2.not_le]
  · simp [update]
  · intro h1 h2
    have hp : (update s inp).1.prev_rpm = inp.rpm := by simp [update]
    have hlt : (update s inp).1.prev_rpm < STALL_RPM_THRESHOLD := by rw [hp]; exact h1
    generalize hS : (update s inp).1 = S at hlt ⊢
    simp [update, detectStall_stall_count, hlt.not_le]
  · intro h1 h2 h3 h4
    have hA : (detectStall (preUpdate s inp) inp.rpm inp.neutral).is_launching = false := by
      simp [detectStall_is_launching, h1, h2, h3]
    constructor
    · simp [update, detectStall_launch_stalled, h1, h2, h3, h4]
    have hB : (detectLug (detectStall (preUpdate s inp) inp.rpm inp.neutral)
        inp.rpm inp.throttle inp.speed (!inp.neutral && !inp.clutch)).is_launching = false := by
      simp [hA]
    obtain ⟨hlc, hlg, hlo, hlp⟩ :=
      detectLaunch_counts_of_not_launching _ inp.rpm inp.speed inp.clutch inp.neutral hB
    simp only [h3, Bool.not_false, Bool.true_and] at hlc hlg hlo hlp
    refine ⟨?_, ?_, ?_, ?_⟩
    · simp [update, hlc, detectStall_launch_count, h1, h2, h3, h4]
    · simp [update, hlg, h1, h2, h3]
    · simp [update, hlo, h1, h2, h3]
    · simp [update, hlp, h1, h2, h3]

/-! ## Lug claim (C6) -/

/-- C6: a rising edge of the lug condition opens an interval (recording the
current tick as its start) and increments the lug counter once; a falling edge
closes it and adds exactly (closing tick − opening tick) × tick period to the
cumulative lug duration; while the condition does not change edge (interval
still open, or no interval), neither the counter nor the cumulative duration
moves — so an interval still open when the process ends has contributed
nothing. -/
theorem lug_interval_spec (s : TrackerState) (inp : TelemetryInput) :
    (isLuggingNow inp.rpm inp.throttle inp.speed (!inp.neutral && !inp.clutch) = true →
      s.is_lugging = false →
      (update s inp).1.session.lug_count = s.session.lug_count + 1 ∧
      (update s inp).1.lug_start_frame = s.frame + 1 ∧
      (update s inp).1.session.lug_duration_total = s.session.lug_duration_total ∧
      (update s inp).1.is_lugging = true) ∧
    (isLuggingNow inp.rpm inp.throttle inp.speed (!inp.neutral && !inp.clutch) = false →
      s.is_lugging = true →
      (update s inp).1.session.lug_duration_total = s.session.lug_duration_total +
        (((s.frame + 1 : ℕ) : ℚ) - (s.lug_start_frame : ℚ)) * DT_CTRL ∧
      (update s inp).1.is_lugging = false ∧
      (update s inp).1.session.lug_count = s.session.lug_count) ∧
    (isLuggingNow inp.rpm inp.throttle inp.speed (!inp.neutral && !inp.clutch) = s.is_lugging →
      (update s inp).1.session.lug_duration_total = s.session.lug_duration_total ∧
      (update s inp).1.session.lug_count = s.session.lug_count) := by
  refine ⟨?_, ?_, ?_⟩
  · intro hn hl
    refine ⟨?_, ?_, ?_, ?_⟩
    · simp [update, detectLug_lug_count, hn, hl]
    · simp [update, detectLug_lug_start_frame, hn, hl]
    · simp [update, detectLug_lug_duration, hn, hl]
    · simp [update, detectLug_is_lugging, hn]
  · intro hn hl
    refine ⟨?_, ?_, ?_⟩
    · simp [update, detectLug_lug_duration, hn, hl]
    · simp [update, detectLug_is_lugging, hn]
    · simp [update, detectLug_lug_count, hn, hl]
  · intro he
    cases hl : s.is_lugging with
    | false =>
        rw [hl] at he
        constructor
        · simp [update, detectLug_lug_duration, he, hl]
        · simp [update, detectLug_lug_count, he, hl]
    | true =>
        rw [hl] at he
        constructor
        · simp [update, detectLug_lug_duration, he, hl]
        · simp [update, detectLug_lug_count, he, hl]

/-! ## `end_session` lemmas -/

@[simp] lemma endSession_stall_count (now : ℚ) (s : TrackerState) :
    (endSession now s).1.session.stall_count = s.session.stall_count := by
  simp only [endSession]; split_ifs <;> rfl

@[simp] lemma endSession_lug_count (now : ℚ) (s : TrackerState) :
    (endSession now s).1.session.lug_count = s.session.lug_count := by
  simp only [endSession]; split_ifs <;> rfl

@[simp] lemma endSession_upshift_count (now : ℚ) (s : TrackerState) :
    (endSession now s).1.session.upshift_count = s.session.upshift_count := by
  simp only [endSession]; split_ifs <;> rfl

@[simp] lemma endSession_downshift_count (now : ℚ) (s : TrackerState) :
    (endSession now s).1.session.downshift_count = s.session.downshift_count := by
  simp only [endSession]; split_ifs <;> rfl

@[simp] lemma endSession_launch_count (now : ℚ) (s : TrackerState) :
    (endSession now s).1.session.launch_count = s.session.launch_count := by
  simp only [endSession]; split_ifs <;> rfl

@[simp] lemma endSession_session_start_frame (now : ℚ) (s : TrackerState) :
    (endSession now s).1.session_start_frame = s.session_start_frame := by
  simp only [endSession]; split_ifs <;> rfl

@[simp] lemma endSession_frame (now : ℚ) (s : TrackerState) :
    (endSession now s).1.frame = s.frame := by
  simp only [endSession]; split_ifs <;> rfl

@[simp] lemma endSession_duration_field (now : ℚ) (s : TrackerState) :
    (endSession now s).1.session.duration = sessionDuration s := by
  simp only [endSession]; split_ifs <;> rfl

lemma endSession_short (now : ℚ) (s : TrackerState) (hd : sessionDuration s < 30) :
    (endSession now s).1.historical = s.historical ∧ (endSession now s).2 = [] := by
  simp only [endSession]
  rw [if_pos hd]
  exact ⟨rfl, rfl⟩

lemma endSession_totals (now : ℚ) (s : TrackerState) (hd : ¬ sessionDuration s < 30) :
    (endSession now s).1.historical.total_drives = s.historical.total_drives + 1 ∧
    (endSession now s).1.historical.total_stalls =
      s.historical.total_stalls + s.session.stall_count ∧
    (endSession now s).1.historical.total_lugs =
      s.historical.total_lugs + s.session.lug_count ∧
    (endSession now s).1.historical.total_upshifts =
      s.historical.total_upshifts + s.session.upshift_count ∧
    (endSession now s).1.historical.total_downshifts =
      s.historical.total_downshifts + s.session.downshift_count ∧
    (endSession now s).1.historical.total_launches =
      s.historical.total_launches + s.session.launch_count ∧
    (endSession now s).1.historical.launches_stalled =
      s.historical.launches_stalled + s.session.launch_stalled := by
  simp only [endSession]
  rw [if_neg hd]
  exact ⟨rfl, rfl, rfl, rfl, rfl, rfl, rfl⟩

lemma endSession_history (now : ℚ) (s : TrackerState) (hd : ¬ sessionDuration s < 30) :
    (endSession now s).1.historical.session_history =
      if 30 < (s.historical.session_history ++ [endSummary now s]).length
      then (s.historical.session_history ++ [endSummary now s]).tail
      else s.historical.session_history ++ [endSummary now s] := by
  simp only [endSession]
  rw [if_neg hd]
  rfl

lemma endSession_saves (now : ℚ) (s : TrackerState) (hd : ¬ sessionDuration s < 30) :
    (endSession now s).2 = [SaveEvent.sessionStats, SaveEvent.historicalStats] := by
  simp only [endSession]
  rw [if_neg hd]

@[simp] lemma update_session_history (s : TrackerState) (inp : TelemetryInput) :
    (update s inp).1.historical.session_history = s.historical.session_history := by
  simp [update]

@[simp] lemma update_live_counter_saves (s : TrackerState) (inp : TelemetryInput) :
    (update s inp).2 =
      if 500 ≤ s.live_update_counter + 1 then [SaveEvent.sessionStats, SaveEvent.liveStats]
      else [] := by
  simp [update]

/-! ## Persistence-on-stall claim (C1) -/

/-- C1 counterexample: a tick on which a stall is detected (the stall counter
increments) writes nothing at all to the persistent store — in particular not
the cumulative-stats blob. -/
theorem stall_flush_counterexample :
    (update stallReadyState stallInput).1.session.stall_count =
      stallReadyState.session.stall_count + 1 ∧
    (update stallReadyState stallInput).2 = [] := by
  constructor
  · simp [update, detectStall_stall_count, stallReadyState, stallInput, baseTracker,
      mkTracker, initHistorical, STALL_RPM_THRESHOLD]
    norm_num
  · rw [update_live_counter_saves]
    norm_num [stallReadyState, baseTracker, mkTracker]

/-- C1 amended: no tick of `update` ever writes the cumulative-stats blob;
the only writes a tick can make are the session/live blobs when the periodic
counter expires (stall or not), and the cumulative blob is written only by
`end_session` on a ≥ 30 s session. -/
theorem stall_flush_spec (s : TrackerState) (inp : TelemetryInput) (now : ℚ) :
    (SaveEvent.historicalStats ∉ (update s inp).2) ∧
    ((update s inp).2 = if 500 ≤ s.live_update_counter + 1
        then [SaveEvent.sessionStats, SaveEvent.liveStats] else []) ∧
    (¬ sessionDuration s < 30 →
      (endSession now s).2 = [SaveEvent.sessionStats, SaveEvent.historicalStats]) := by
  refine ⟨?_, by simp, fun hd => endSession_saves now s hd⟩
  rw [update_live_counter_saves]
  split_ifs <;> simp

/-- C1 witness: the periodic branch fires at counter 499, and a 40 s session
end writes the cumulative blob. -/
theorem stall_flush_spec_witness :
    ¬ sessionDuration endReadyState < 30 ∧
    (endSession 0 endReadyState).2 = [SaveEvent.sessionStats, SaveEvent.historicalStats] :=
  ⟨by norm_num [sessionDuration, endReadyState, baseTracker, mkTracker, DT_CTRL],
   (stall_flush_spec endReadyState stallInput 0).2.2
     (by norm_num [sessionDuration, endReadyState, baseTracker, mkTracker, DT_CTRL])⟩

/-! ## Session-delta claim (C2) -/

/-- C2 counterexample: one tick after construction a stall makes the session
stall counter 1, while the live cumulative counter minus its value in the
construction-time snapshot is still 0 — the tracker does not derive session
values as cumulative-minus-snapshot. -/
theorem session_delta_counterexample :
    ¬ ((update stallReadyState stallInput).1.session.stall_count =
        (update stallReadyState stallInput).1.historical.total_stalls -
          initHistorical.total_stalls) := by
  have h1 : (update stallReadyState stallInput).1.session.stall_count = 1 := by
    simp [update, detectStall_stall_count, stallReadyState, stallInput, baseTracker,
      mkTracker, initHistorical, STALL_RPM_THRESHOLD]
    norm_num
  have h2 : (update stallReadyState stallInput).1.historical.total_stalls = 0 := by
    simp [update, stallReadyState, stallInput, baseTracker, mkTracker, initHistorical]
  rw [h1, h2]
  decide

/-- C2 amended: session counters form a separate set that starts at zero at
construction (so the session view is zero at tick 0); ticks never move the
cumulative counters, which advance only when `end_session` folds the session
counters into them (for a ≥ 30 s session). -/
theorem session_counters_spec (h0 : HistoricalStats) (s : TrackerState)
    (inp : TelemetryInput) (now : ℚ) :
    ((mkTracker h0).session.stall_count = 0 ∧ (mkTracker h0).session.lug_count = 0 ∧
     (mkTracker h0).session.upshift_count = 0 ∧ (mkTracker h0).session.downshift_count = 0 ∧
     (mkTracker h0).session.launch_count = 0 ∧ (mkTracker h0).historical = h0) ∧
    ((update s inp).1.historical.total_stalls = s.historical.total_stalls ∧
     (update s inp).1.historical.total_lugs = s.historical.total_lugs ∧
     (update s inp).1.historical.total_upshifts = s.historical.total_upshifts ∧
     (update s inp).1.historical.total_downshifts = s.historical.total_downshifts ∧
     (update s inp).1.historical.total_launches = s.historical.total_launches ∧
     (update s inp).1.historical.launches_stalled = s.historical.launches_stalled) ∧
    (¬ sessionDuration s < 30 →
      (endSession now s).1.historical.total_stalls =
        s.historical.total_stalls + s.session.stall_count ∧
      (endSession now s).1.historical.total_lugs =
        s.historical.total_lugs + s.session.lug_count ∧
      (endSession now s).1.historical.total_upshifts =
        s.historical.total_upshifts + s.session.upshift_count ∧
      (endSession now s).1.historical.total_downshifts =
        s.historical.total_downshifts + s.session.downshift_count ∧
      (endSession now s).1.historical.total_launches =
        s.historical.total_launches + s.session.launch_count) := by
  refine ⟨⟨rfl, rfl, rfl, rfl, rfl, rfl⟩, ?_, ?_⟩
  · refine ⟨?_, ?_, ?_, ?_, ?_, ?_⟩ <;> simp [update]
  · intro hd
    obtain ⟨_, h1, h2, h3, h4, h5, _⟩ := endSession_totals now s hd
    exact ⟨h1, h2, h3, h4, h5⟩

/-- C2 witness: the 40 s fixture session folds its stall count into the
cumulative total at `end_session`. -/
theorem session_counters_spec_witness :
    ¬ sessionDuration endReadyState < 30 ∧
    (endSession 0 endReadyState).1.historical.total_stalls =
      endReadyState.historical.total_stalls + endReadyState.session.stall_count :=
  ⟨by norm_num [sessionDuration, endReadyState, baseTracker, mkTracker, DT_CTRL],
   ((session_counters_spec initHistorical endReadyState stallInput 0).2.2
     (by norm_num [sessionDuration, endReadyState, baseTracker, mkTracker, DT_CTRL])).1⟩

/-! ## Session-history bound claim (C8) -/

/-- C8: ticks never touch the session history; `end_session` preserves the
30-entry bound; and when the history already holds exactly 30 entries,
appending the new summary evicts the oldest entry first, preserving FIFO
order and the 30-entry length. -/
theorem session_history_bound (s : TrackerState) (now : ℚ) (inp : TelemetryInput) :
    ((update s inp).1.historical.session_history = s.historical.session_history) ∧
    (s.historical.session_history.length ≤ 30 →
      (endSession now s).1.historical.session_history.length ≤ 30) ∧
    (s.historical.session_history.length = 30 → ¬ sessionDuration s < 30 →
      (endSession now s).1.historical.session_history =
        s.historical.session_history.tail ++ [endSummary now s] ∧
      (endSession now s).1.historical.session_history.length = 30) := by
  refine ⟨update_session_history s inp, ?_, ?_⟩
  · intro hlen
    by_cases hd : sessionDuration s < 30
    · rw [(endSession_short now s hd).1]
      exact hlen
    · rw [endSession_history now s hd]
      split_ifs with h
    -- eviction branch: length = (len + 1) - 1 ≤ 30
      · simp only [List.length_tail, List.length_append, List.length_singleton]
        omega
      · simp only [List.length_append, List.length_singleton] at h ⊢
        omega
  · intro hlen hd
    have hne : s.historical.session_history ≠ [] := by
      intro hnil
      rw [hnil] at hlen
      simp at hlen
    have htail : (s.historical.session_history ++ [endSummary now s]).tail =
        s.historical.session_history.tail ++ [endSummary now s] := by
      cases hsh : s.historical.session_history with
      | nil => exact absurd hsh hne
      | cons a t => simp
    have hif : (30 : ℕ) < (s.historical.session_history ++ [endSummary now s]).length := by
      simp [hlen]
    rw [endSession_history now s hd, if_pos hif, htail]
    refine ⟨rfl, ?_⟩
    simp [List.length_tail, hlen]

/-- C8 witness: a full 30-entry history stays at 30 entries across a 40 s
session end. -/
theorem session_history_bound_witness :
    fullHistoryState.historical.session_history.length = 30 ∧
    ¬ sessionDuration fullHistoryState < 30 ∧
    (endSession 0 fullHistoryState).1.historical.session_history.length = 30 :=
  ⟨by simp [fullHistoryState, endReadyState, baseTracker, mkTracker, initHistorical],
   by norm_num [sessionDuration, fullHistoryState, endReadyState, baseTracker, mkTracker, DT_CTRL],
   ((session_history_bound fullHistoryState 0 stallInput).2.2
     (by simp [fullHistoryState, endReadyState, baseTracker, mkTracker, initHistorical])
     (by norm_num [sessionDuration, fullHistoryState, endReadyState, baseTracker, mkTracker,
       DT_CTRL])).2⟩

/-! ## `end_session` frame-effect claim (C10) -/

/-- C10: `end_session` recomputes the duration but leaves the session
counters and the session start marker (and frame) untouched, so a second
call on a ≥ 30 s session folds the same counters into the historical totals
again and appends a second history entry. -/
theorem end_session_no_reset (s : TrackerState) (now now' : ℚ)
    (hd : ¬ sessionDuration s < 30) :
    ((endSession now s).1.session.stall_count = s.session.stall_count ∧
     (endSession now s).1.session.lug_count = s.session.lug_count ∧
     (endSession now s).1.session.upshift_count = s.session.upshift_count ∧
     (endSession now s).1.session.downshift_count = s.session.downshift_count ∧
     (endSession now s).1.session.launch_count = s.session.launch_count ∧
     (endSession now s).1.session_start_frame = s.session_start_frame ∧
     (endSession now s).1.frame = s.frame) ∧
    ((endSession now' (endSession now s).1).1.historical.total_stalls =
      s.historical.total_stalls + 2 * s.session.stall_count) ∧
    ((endSession now' (endSession now s).1).1.historical.total_drives =
      s.historical.total_drives + 2) ∧
    (s.historical.session_history.length ≤ 28 →
      (endSession now' (endSession now s).1).1.historical.session_history.length =
        s.historical.session_history.length + 2) := by
  have hdur1 : sessionDuration (endSession now s).1 = sessionDuration s := by
    unfold sessionDuration
    rw [endSession_frame, endSession_session_start_frame]
  have hd1 : ¬ sessionDuration (endSession now s).1 < 30 := by rw [hdur1]; exact hd
  refine ⟨⟨by simp, by simp, by simp, by simp, by simp, by simp, by simp⟩, ?_, ?_, ?_⟩
  · obtain ⟨_, h1, _⟩ := endSession_totals now' (endSession now s).1 hd1
    obtain ⟨_, h1', _⟩ := endSession_totals now s hd
    rw [h1, h1', endSession_stall_count]
    ring
  · obtain ⟨h0, _⟩ := endSession_totals now' (endSession now s).1 hd1
    obtain ⟨h0', _⟩ := endSession_totals now s hd
    rw [h0, h0']
  · intro hlen
    have e1 := endSession_history now s hd
    have e2 := endSession_history now' (endSession now s).1 hd1
    have hl1 : ¬ (30 : ℕ) <
        (s.historical.session_history ++ [endSummary now s]).length := by
      simp only [List.length_append, List.length_singleton]
      omega
    rw [e1, if_neg hl1] at e2
    have hl2 : ¬ (30 : ℕ) <
        ((s.historical.session_history ++ [endSummary now s]) ++
          [endSummary now' (endSession now s).1]).length := by
      simp only [List.length_append, List.length_singleton]
      omega
    rw [e2, if_neg hl2]
    simp only [List.length_append, List.length_singleton]

/-- C10 witness: on the 40 s fixture, two `end_session` calls double-count
the stall total and append two history entries. -/
theorem end_session_no_reset_witness :
    ¬ sessionDuration endReadyState < 30 ∧
    (endSession 1 (endSession 0 endReadyState).1).1.historical.total_stalls =
      endReadyState.historical.total_stalls + 2 * endReadyState.session.stall_count ∧
    (endSession 1 (endSession 0 endReadyState).1).1.historical.session_history.length =
      endReadyState.historical.session_history.length + 2 :=
  ⟨by norm_num [sessionDuration, endReadyState, baseTracker, mkTracker, DT_CTRL],
   (end_session_no_reset endReadyState 0 1
     (by norm_num [sessionDuration, endReadyState, baseTracker, mkTracker, DT_CTRL])).2.1,
   (end_session_no_reset endReadyState 0 1
     (by norm_num [sessionDuration, endReadyState, baseTracker, mkTracker, DT_CTRL])).2.2.2
     (by simp [endReadyState, baseTracker, mkTracker, initHistorical])⟩

lemma bestGearFold_some (rpm speed : ℚ) :
    ∀ (gs : List ℤ) (bg : ℤ) (m : ℚ),
      ∃ bg' m', bestGearFold rpm speed gs (bg, some m) = (bg', some m') ∧
        m' ≤ m ∧ (∀ g ∈ gs, m' ≤ gearError rpm speed g) ∧
        ((bg' = bg ∧ m' = m) ∨ (bg' ∈ gs ∧ m' = gearError rpm speed bg')) := by
  intro gs
  induction gs with
  | nil =>
      intro bg m
      exact ⟨bg, m, rfl, le_refl m, by simp, Or.inl ⟨rfl, rfl⟩⟩
  | cons g gs ih =>
      intro bg m
      by_cases h : gearError rpm speed g < m
      · obtain ⟨bg', m', heq, hle, hall, hcase⟩ := ih g (gearError rpm speed g)
        refine ⟨bg', m', ?_, le_trans hle h.le, ?_, ?_⟩
        · rw [bestGearFold, if_pos h]
          exact heq
        · intro x hx
          rcases List.mem_cons.mp hx with hx1 | hx2
          · rw [hx1]; exact hle
          · exact hall x hx2
        · rcases hcase with ⟨hb, hm⟩ | ⟨hb, hm⟩
          · exact Or.inr ⟨by rw [hb]; exact List.mem_cons_self g gs, by rw [hm, hb]⟩
          · exact Or.inr ⟨List.mem_cons_of_mem g hb, hm⟩
      · obtain ⟨bg', m', heq, hle, hall, hcase⟩ := ih bg m
        refine ⟨bg', m', ?_, hle, ?_, ?_⟩
        · rw [bestGearFold, if_neg h]
          exact heq
        · intro x hx
          rcases List.mem_cons.mp hx with hx1 | hx2
          · rw [hx1]; exact le_trans hle (not_lt.mp h)
          · exact hall x hx2
        · rcases hcase with ⟨hb, hm⟩ | ⟨hb, hm⟩
          · exact Or.inl ⟨hb, hm⟩
          · exact Or.inr ⟨List.mem_cons_of_mem g hb, hm⟩

/-- Running the loop over gears 1..6: the result is some gear in 1..6 whose
(discounted) error is the minimum over all six gears. -/
lemma bestGearFold_run (rpm speed : ℚ) :
    ∃ bg m, bestGearFold rpm speed [1, 2, 3, 4, 5, 6] (0, none) = (bg, some m) ∧
      1 ≤ bg ∧ bg ≤ 6 ∧ m = gearError rpm speed bg ∧
      (∀ g : ℤ, 1 ≤ g → g ≤ 6 → m ≤ gearError rpm speed g) := by
  have hstep : bestGearFold rpm speed [1, 2, 3, 4, 5, 6] (0, none) =
      bestGearFold rpm speed [2, 3, 4, 5, 6] (1, some (gearError rpm speed 1)) := by
    rw [bestGearFold]
  obtain ⟨bg, m, heq, hle, hall, hcase⟩ :=
    bestGearFold_some rpm speed [2, 3, 4, 5, 6] 1 (gearError rpm speed 1)
  have hmem : 1 ≤ bg ∧ bg ≤ 6 ∧ m = gearError rpm speed bg := by
    rcases hcase with ⟨hb, hm⟩ | ⟨hb, hm⟩
    · subst hb
      exact ⟨le_refl 1, by norm_num, hm⟩
    · have hb' : bg = 2 ∨ bg = 3 ∨ bg = 4 ∨ bg = 5 ∨ bg = 6 := by simpa using hb
      exact ⟨by omega, by omega, hm⟩
  refine ⟨bg, m, by rw [hstep, heq], hmem.1, hmem.2.1, hmem.2.2, ?_⟩
  intro g hg1 hg6
  interval_cases g
  · exact hle
  · exact hall 2 (by norm_num)
  · exact hall 3 (by norm_num)
  · exact hall 4 (by norm_num)
  · exact hall 5 (by norm_num)
  · exact hall 6 (by norm_num)

/-- C7: `predict_gear` returns 0 below the idle/stopped floor; above it, it
returns 0 whenever every gear's discounted error exceeds 500 rpm, and
whenever some gear's discounted error is under 500 rpm it returns a gear in
1..6 of minimal discounted error; a pair built exactly from gear 3's ratio
yields 3. -/
theorem predict_gear_spec (rpm speed : ℚ) :
    (rpm < 500 ∨ speed < 1 / 2 → predict_gear rpm speed = 0) ∧
    (¬ (rpm < 500 ∨ speed < 1 / 2) →
      ((∀ g : ℤ, 1 ≤ g → g ≤ 6 → 500 < gearError rpm speed g) →
        predict_gear rpm speed = 0) ∧
      (∀ g0 : ℤ, 1 ≤ g0 → g0 ≤ 6 → gearError rpm speed g0 < 500 →
        1 ≤ predict_gear rpm speed ∧ predict_gear rpm speed ≤ 6 ∧
        (∀ g : ℤ, 1 ≤ g → g ≤ 6 →
          gearError rpm speed (predict_gear rpm speed) ≤ gearError rpm speed g))) ∧
    predict_gear (rpm_for_speed_and_gear 10 3) 10 = 3 := by
  refine ⟨?_, ?_, ?_⟩
  · intro h
    rw [predict_gear, if_pos h]
  · intro h
    obtain ⟨bg, m, heq, h1, h6, hm, hmin⟩ := bestGearFold_run rpm speed
    constructor
    · intro hbig
      rw [predict_gear, if_neg h, heq]
      have : ¬ m < 500 := not_lt.mpr (le_of_lt (by rw [hm]; exact hbig bg h1 h6))
      simp [this]
    · intro g0 hg01 hg06 hg0
      have hmlt : m < 500 := lt_of_le_of_lt (hmin g0 hg01 hg06) hg0
      have hpg : predict_gear rpm speed = bg := by
        rw [predict_gear, if_neg h, heq]
        simp [hmlt]
      rw [hpg]
      exact ⟨h1, h6, fun g hg1 hg6 => by rw [← hm]; exact hmin g hg1 hg6⟩
  · norm_num [predict_gear, bestGearFold, gearError, rpm_for_speed_and_gear,
      BRZ_GEAR_RATIOS, BRZ_FINAL_DRIVE, BRZ_TIRE_CIRCUMFERENCE, abs]

/-- C7 witness: at 10 m/s with gear 4's exact rpm, the predictor is above the
floor, gear 4's error is 0 < 500, and the returned gear's error is minimal. -/
theorem predict_gear_spec_witness :
    ¬ (rpm_for_speed_and_gear 10 4 < 500 ∨ (10 : ℚ) < 1 / 2) ∧
    gearError (rpm_for_speed_and_gear 10 4) 10 4 < 500 ∧
    (1 ≤ predict_gear (rpm_for_speed_and_gear 10 4) 10 ∧
     predict_gear (rpm_for_speed_and_gear 10 4) 10 ≤ 6 ∧
     (∀ g : ℤ, 1 ≤ g → g ≤ 6 →
       gearError (rpm_for_speed_and_gear 10 4) 10
           (predict_gear (rpm_for_speed_and_gear 10 4) 10) ≤
         gearError (rpm_for_speed_and_gear 10 4) 10 g)) :=
  ⟨by norm_num [rpm_for_speed_and_gear, BRZ_GEAR_RATIOS, BRZ_FINAL_DRIVE,
      BRZ_TIRE_CIRCUMFERENCE],
   by norm_num [gearError, rpm_for_speed_and_gear, BRZ_GEAR_RATIOS, BRZ_FINAL_DRIVE,
      BRZ_TIRE_CIRCUMFERENCE],
   ((predict_gear_spec (rpm_for_speed_and_gear 10 4) 10).2.1
     (by norm_num [rpm_for_speed_and_gear, BRZ_GEAR_RATIOS, BRZ_FINAL_DRIVE,
        BRZ_TIRE_CIRCUMFERENCE])).2 4 (by norm_num) (by norm_num)
     (by norm_num [gearError, rpm_for_speed_and_gear, BRZ_GEAR_RATIOS, BRZ_FINAL_DRIVE,
        BRZ_TIRE_CIRCUMFERENCE])⟩

lemma calculateJerkSqChecked_eq (h : List ℚ) :
    calculateJerkSqChecked h = some (calculateJerkSq h) := by
  unfold calculateJerkSqChecked calculateJerkSq
  split_ifs with hlt
  · rfl
  · have hpos : 0 < (last50 h).length := by
      unfold last50
      rw [List.length_drop]
      omega
    have hne : ((last50 h).length : ℚ) ≠ 0 :=
      Nat.cast_ne_zero.mpr (Nat.pos_iff_ne_zero.mp hpos)
    unfold popVarianceChecked safeDiv popVariance listMean
    rw [if_neg hne, Option.some_bind, if_neg hne]

lemma detectLaunchChecked_eq (s : TrackerState) (rpm speed : ℚ) (clutch neutral : Bool) :
    detectLaunchChecked s rpm speed clutch neutral =
      some (detectLaunch s rpm speed clutch neutral) := by
  simp only [detectLaunchChecked, detectLaunch, calculateJerkSqChecked_eq, Option.some_bind]
  split_ifs <;> rfl

lemma detectShiftChecked_eq (s : TrackerState) (rpm : ℚ) (gear : ℤ) (clutch neutral : Bool) :
    detectShiftChecked s rpm gear clutch neutral =
      some (detectShift s rpm gear clutch neutral) := by
  simp only [detectShiftChecked, detectShift, calculateJerkSqChecked_eq, Option.some_bind]
  split_ifs <;> rfl

/-- C9: the tick function is total.  For every state and every input sample —
including out-of-range ones (negative speed, throttle outside [0,1], gear
outside 0..6) — the checked tick, in which every operation that could raise
returns `none` instead, always returns `some`: no tick can abort the owning
process. -/
theorem update_never_raises (s : TrackerState) (inp : TelemetryInput) :
    updateChecked s inp = some (update s inp) := by
  simp only [updateChecked, update, detectLaunchChecked_eq, Option.some_bind,
    detectShiftChecked_eq]

/-- C4 witness: a concrete falling-edge crossing (400 → 100 rpm, in gear)
during a launch increments the stall, stalled-launch and total-launch
counters. -/
theorem stall_edge_spec_witness :
    stallInput.rpm < STALL_RPM_THRESHOLD ∧
    STALL_RPM_THRESHOLD ≤ stallLaunchState.prev_rpm ∧
    stallLaunchState.is_launching = true ∧
    (update stallLaunchState stallInput).1.session.stall_count =
      stallLaunchState.session.stall_count + 1 ∧
    (update stallLaunchState stallInput).1.session.launch_stalled =
      stallLaunchState.session.launch_stalled + 1 ∧
    (update stallLaunchState stallInput).1.session.launch_count =
      stallLaunchState.session.launch_count + 1 :=
  ⟨by norm_num [stallInput, STALL_RPM_THRESHOLD],
   by norm_num [stallLaunchState, stallReadyState, baseTracker, mkTracker, STALL_RPM_THRESHOLD],
   rfl,
   (stall_edge_spec stallLaunchState stallInput stallInput).1
     (by norm_num [stallInput, STALL_RPM_THRESHOLD])
     (by norm_num [stallLaunchState, stallReadyState, baseTracker, mkTracker,
        STALL_RPM_THRESHOLD]) rfl,
   ((stall_edge_spec stallLaunchState stallInput stallInput).2.2.2.2
     (by norm_num [stallInput, STALL_RPM_THRESHOLD])
     (by norm_num [stallLaunchState, stallReadyState, baseTracker, mkTracker,
        STALL_RPM_THRESHOLD]) rfl rfl).1,
   ((stall_edge_spec stallLaunchState stallInput stallInput).2.2.2.2
     (by norm_num [stallInput, STALL_RPM_THRESHOLD])
     (by norm_num [stallLaunchState, stallReadyState, baseTracker, mkTracker,
        STALL_RPM_THRESHOLD]) rfl rfl).2.1⟩

/-- C6 witness: a concrete rising edge of the lug condition (in gear, 1000 rpm,
half throttle, 2 m/s) opens an interval and increments the lug counter. -/
theorem lug_interval_spec_witness :
    isLuggingNow lugInput.rpm lugInput.throttle lugInput.speed
      (!lugInput.neutral && !lugInput.clutch) = true ∧
    baseTracker.is_lugging = false ∧
    (update baseTracker lugInput).1.session.lug_count = baseTracker.session.lug_count + 1 ∧
    (update baseTracker lugInput).1.is_lugging = true :=
  ⟨by norm_num [isLuggingNow, lugInput, LUG_RPM_THRESHOLD, LUG_LOAD_THRESHOLD,
      MIN_SPEED_FOR_LUG],
   rfl,
   ((lug_interval_spec baseTracker lugInput).1
     (by norm_num [isLuggingNow, lugInput, LUG_RPM_THRESHOLD, LUG_LOAD_THRESHOLD,
        MIN_SPEED_FOR_LUG]) rfl).1,
   ((lug_interval_spec baseTracker lugInput).1
     (by norm_num [isLuggingNow, lugInput, LUG_RPM_THRESHOLD, LUG_LOAD_THRESHOLD,
        MIN_SPEED_FOR_LUG]) rfl).2.2.2⟩

end ManualStats
